import Mathlib

/-!
# pvc-migrate: a shallow embedding of `pvc-migrate.go`

The program migrates a persistent volume claim through a temporary claim.
Every collaborator call (typed cluster client, `kubectl` subprocess, random
source) is modelled by passing the collaborator's response in as data; each
function returns the list of effects it performed together with an
indication of whether the process is still running afterwards.
-/

namespace PvcMigrate

/-! ## Data model -/

/-- One entry of `pod.OwnerReferences`. -/
structure OwnerReference where
  kind : String
  name : String
deriving DecidableEq, Repr

/-- One entry of `pod.Spec.Volumes`: `persistentVolumeClaim` is `none` for a nil
pointer and `some claimName` otherwise. -/
structure Volume where
  persistentVolumeClaim : Option String
deriving DecidableEq, Repr

/-- The fields of a listed pod that `main` reads. -/
structure Pod where
  name : String
  volumes : List Volume
  ownerReferences : List OwnerReference
deriving DecidableEq, Repr

/-- The six command line flags (lines 26-33). The `int` flags are mathematical
integers here; 64-bit range is a hypothesis where it matters. -/
structure Flags where
  bwLimit : Int
  oldPVC : String
  newSizeGi : Int
  newStorageClass : String
  namespace_ : String
  sshPort : Int
deriving DecidableEq, Repr

/-- Result of `exec.Command(...).Output()`: captured standard output and the error. -/
structure ExecResult where
  out : String
  err : Option String
deriving DecidableEq, Repr

/-- An observable effect of the program, together with the collaborator's response. -/
inductive Event where
  | buildConfig (err : Option String)
  | newForConfig (err : Option String)
  | listPods (ns : String) (err : Option String)
  | patchDeployment (ns name : String) (replicas : Int) (body : String) (err : Option String)
  | patchStatefulSet (ns name : String) (replicas : Int) (body : String)
      (err : Option String)
  | deleteDaemonSet (ns name : String) (err : Option String)
  | createPVC (ns name : String) (storage : Int) (accessModes : List String)
      (storageClass : String) (err : Option String)
  | deletePVC (ns name : String) (err : Option String)
  | exec (argv : List String) (stdin : String) (out : String) (err : Option String)
  | sleep (seconds : Nat)
  | log (line : String)
  | println (line : String)
deriving DecidableEq, Repr

/-- Why a run is not (or not yet) past a statement: the process exited, or a
polling loop is still polling when the fuel runs out. -/
inductive Halt where
  | exit (code : Nat)
  | polling
deriving DecidableEq, Repr

/-- The effects performed and, if the flow of control stopped, why. -/
structure Run where
  trace : List Event
  halt : Option Halt
deriving DecidableEq, Repr

/-- Sequential composition of statements: run them in order until one halts. -/
def seqRuns : List Run → Run
  | [] => ⟨[], none⟩
  | r :: rs =>
    match r.halt with
    | some h => ⟨r.trace, some h⟩
    | none => ⟨r.trace ++ (seqRuns rs).trace, (seqRuns rs).halt⟩

/-! ## Library functions used by the program -/

/-- The code points for which Go's `unicode.IsSpace` holds. -/
def isSpace (c : Char) : Bool :=
  let n := c.toNat
  n == 9 || n == 10 || n == 11 || n == 12 || n == 13 || n == 32 || n == 0x85 || n == 0xA0 ||
  n == 0x1680 || (0x2000 ≤ n && n ≤ 0x200a) || n == 0x2028 || n == 0x2029 || n == 0x202f ||
  n == 0x205f || n == 0x3000

/-- Go's `strings.TrimSpace`: drop leading and trailing white space. -/
def TrimSpace (s : String) : String :=
  String.mk ((s.data.dropWhile isSpace).reverse.dropWhile isSpace).reverse

/-- The verb `%d` of `fmt.Sprintf` and `log.Printf`. -/
def fmtD (n : Int) : String := toString n

/-- Two's complement wrap-around of a mathematical integer into `int64`. -/
def wrap64 (x : Int) : Int := (x + 2 ^ 63) % 2 ^ 64 - 2 ^ 63

/-- Multiplication of `int64` values as Go performs it. -/
def mul64 (a b : Int) : Int := wrap64 (a * b)

/-! ## The helper functions of `pvc-migrate.go` -/

/-- The alphabet of `randomString` (line 156). -/
def letters : String := "abcdefghijklmnopqrstuvwxyzABCDEFGHIJKLMNOPQRSTUVWXYZ0123456789"

/-- Lines 155-163. `rnd i` is the `i`-th draw of `rand.Int`, which the library
keeps below `len(letters)`; the reduction modulo 62 stands for that guarantee. -/
def randomString (rnd : Nat → Nat) (n : Nat) : String :=
  String.mk ((List.range n).map fun i => letters.data.getD (rnd i % letters.length) 'a')

/-- The argument vector of the phase query issued by both pollers (lines 167, 178). -/
def phaseArgv (podName ns : String) : List String :=
  ["kubectl", "get", "pod", podName, "-n", ns, "-o", "jsonpath=\x7b.status.phase\x7d"]

/-- The common shape of the two polling loops: query the phase, stop when the
trimmed output is `target`, otherwise sleep five seconds and poll again.
`polls i` is the result of the `i`-th query; the error is discarded. -/
def pollLoop (target : String) (done : String) (polls : Nat → ExecResult)
    (podName ns : String) : Nat → Nat → Run
  | 0, _ => ⟨[], some .polling⟩
  | fuel + 1, i =>
    if TrimSpace (polls i).out = target then
      ⟨[.exec (phaseArgv podName ns) "" (polls i).out (polls i).err, .log done], none⟩
    else
      let rest := pollLoop target done polls podName ns fuel (i + 1)
      ⟨.exec (phaseArgv podName ns) "" (polls i).out (polls i).err :: .sleep 5 :: rest.trace,
        rest.halt⟩

/-- Lines 165-174. -/
def waitForPodRunning (polls : Nat → ExecResult) (podName ns : String) (fuel : Nat) : Run :=
  pollLoop "Running" ("Pod " ++ podName ++ " is now running.") polls podName ns fuel 0

/-- Lines 176-185. -/
def waitForPodSuccess (polls : Nat → ExecResult) (podName ns : String) (fuel : Nat) : Run :=
  pollLoop "Succeeded" ("Pod " ++ podName ++ " completed successfully.") polls podName ns fuel 0

/-- Lines 187-193. `resp` is the error returned by the cluster's `Delete`. -/
def deletePVC (resp : Option String) (name ns : String) : Run :=
  match resp with
  | some err =>
    ⟨[.deletePVC ns name (some err), .log ("Error deleting PVC " ++ name ++ ": " ++ err)],
      some (.exit 1)⟩
  | none => ⟨[.deletePVC ns name none, .log ("Deleted PVC " ++ name)], none⟩

/-- Line 196: `size * 1024 * 1024 * 1024` in `int64`. -/
def storageQuantity (size : Int) : Int := mul64 (mul64 (mul64 size 1024) 1024) 1024

/-- Lines 195-214. `resp` is the error returned by the cluster's `Create`. -/
def createPVC (resp : Option String) (name : String) (size : Int) (storageClass ns : String) :
    Run :=
  match resp with
  | some err =>
    ⟨[.createPVC ns name (storageQuantity size) ["ReadWriteOnce"] storageClass (some err),
      .log ("Error creating PVC " ++ name ++ ": " ++ err)], some (.exit 1)⟩
  | none =>
    ⟨[.createPVC ns name (storageQuantity size) ["ReadWriteOnce"] storageClass none,
      .log ("Created PVC " ++ name)], none⟩

/-- The manifest text built at lines 221-247. -/
def sourcePodYAML (pvc ns podName : String) (sshPort : Int) (username password : String) :
    String :=
  "\napiVersion: v1\nkind: Pod\nmetadata:\n  name: " ++ podName ++ "\n  namespace: " ++ ns ++
  "\n" ++ "spec:\n  containers:\n  - name: ssh-server\n    image: alpine:latest\n" ++
  "    command: [\"/bin/sh\", \"-x\", \"-c\"]\n    args:\n      - |\n" ++
  "        apk add --no-cache openssh rsync &&\n        echo \"" ++ username ++ ":" ++ password ++
  "\" | chpasswd &&\n" ++
  "        sed -i \x27s/#PermitRootLogin prohibit-password/PermitRootLogin yes/\x27 /etc/ssh/sshd_config &&\n" ++
  "        ssh-keygen -A &&\n        /usr/sbin/sshd -D -e -p " ++ fmtD sshPort ++
  "\n    volumeMounts:\n    - name: src-volume\n      mountPath: /mnt/data\n" ++
  "  restartPolicy: Always\n  volumes:\n  - name: src-volume\n    persistentVolumeClaim:\n" ++
  "      claimName: " ++ pvc ++ "\n"

/-- Lines 216-255. `clear` is the (discarded) error of the preliminary
`kubectl delete --ignore-not-found`, `apply` the error of `kubectl apply`. -/
def startSourcePod (clear apply : Option String) (pvc ns podName : String) (sshPort : Int)
    (username password : String) : Run :=
  let head : List Event :=
    [.log ("Starting source pod " ++ podName ++ " with PVC " ++ pvc),
     .exec ["kubectl", "delete", "pod", podName, "-n", ns, "--ignore-not-found=true"] "" "" clear,
     .exec ["kubectl", "apply", "-f", "-"]
       (sourcePodYAML pvc ns podName sshPort username password) "" apply]
  match apply with
  | some err => ⟨head ++ [.log ("Error creating source pod: " ++ err)], some (.exit 1)⟩
  | none => ⟨head, none⟩

/-- The manifest text built at lines 268-291. The command is the one of line
282 (`rsync -aHAXSv`), not the one in the comment of line 267 (`-aHAXvzc`). -/
def destPodYAML (pvc ns podName : String) (bwLimit sshPort : Int)
    (username password srcPodIP : String) : String :=
  "\napiVersion: v1\nkind: Pod\nmetadata:\n  name: " ++ podName ++ "\n  namespace: " ++ ns ++
  "\n" ++ "spec:\n  containers:\n  - name: rsync-client\n    image: alpine:latest\n" ++
  "    command: [\"/bin/sh\", \"-x\", \"-c\"]\n    args:\n      - |\n" ++
  "        apk add --no-cache rsync openssh-client sshpass &&\n        sshpass -p " ++ password ++
  " rsync -aHAXSv --bwlimit=" ++ fmtD bwLimit ++ " --progress -e \"ssh -p " ++ fmtD sshPort ++
  " -o StrictHostKeyChecking=no\" " ++ username ++ "@" ++ srcPodIP ++ ":/mnt/data/ /mnt/data/" ++
  "\n    volumeMounts:\n    - name: dst-volume\n      mountPath: /mnt/data\n" ++
  "  restartPolicy: Never\n  volumes:\n  - name: dst-volume\n    persistentVolumeClaim:\n" ++
  "      claimName: " ++ pvc ++ "\n"

/-- Lines 257-299. `clear` is the (discarded) error of the preliminary delete,
`ip` the result of the address query, `apply` the error of `kubectl apply`. -/
def startDestPod (clear : Option String) (ip : ExecResult) (apply : Option String)
    (pvc ns podName srcPod : String) (bwLimit sshPort : Int) (username password : String) : Run :=
  let head : List Event :=
    [.log ("Starting destination pod " ++ podName ++ " with PVC " ++ pvc),
     .exec ["kubectl", "delete", "pod", podName, "-n", ns, "--ignore-not-found=true"] "" "" clear,
     .exec ["kubectl", "-n", ns, "get", "pod", srcPod, "-o", "jsonpath=\x7b.status.podIP\x7d"]
       "" ip.out ip.err]
  match ip.err with
  | some err =>
    ⟨head ++ [.log ("Error getting IP of source pod " ++ srcPod ++ ": " ++ err)], some (.exit 1)⟩
  | none =>
    let applied : Event :=
      .exec ["kubectl", "apply", "-f", "-"]
        (destPodYAML pvc ns podName bwLimit sshPort username password (TrimSpace ip.out)) "" apply
    match apply with
    | some err =>
      ⟨head ++ [applied, .log ("Error creating destination pod: " ++ err)], some (.exit 1)⟩
    | none => ⟨head ++ [applied], none⟩

/-- The patch body of lines 305 and 313. -/
def patchBody (replicas : Int) : String :=
  "\x7b\"spec\":\x7b\"replicas\":" ++ fmtD replicas ++ "\x7d\x7d"

/-- Lines 301-329. `resp` is the error returned by the one cluster call the
selected branch makes (a strategic merge patch, or a delete). A patch event
records the replica count together with the body that carries it. -/
def scaleWorkload (resp : Option String) (kind name ns : String) (replicas : Int) : Run :=
  if kind = "Deployment" then
    match resp with
    | some err =>
      ⟨[.patchDeployment ns name replicas (patchBody replicas) (some err),
        .log ("Failed to scale Deployment " ++ name ++ ": " ++ err)], some (.exit 1)⟩
    | none =>
      ⟨[.patchDeployment ns name replicas (patchBody replicas) none,
        .log ("Scaled Deployment " ++ name ++ " to " ++ fmtD replicas ++ " replicas")], none⟩
  else if kind = "StatefulSet" then
    match resp with
    | some err =>
      ⟨[.patchStatefulSet ns name replicas (patchBody replicas) (some err),
        .log ("Failed to scale StatefulSet " ++ name ++ ": " ++ err)], some (.exit 1)⟩
    | none =>
      ⟨[.patchStatefulSet ns name replicas (patchBody replicas) none,
        .log ("Scaled StatefulSet " ++ name ++ " to " ++ fmtD replicas ++ " replicas")], none⟩
  else if kind = "DaemonSet" then
    match resp with
    | some err =>
      ⟨[.deleteDaemonSet ns name (some err),
        .log ("Failed to delete DaemonSet " ++ name ++ ": " ++ err)], some (.exit 1)⟩
    | none => ⟨[.deleteDaemonSet ns name none, .log ("Deleted DaemonSet " ++ name)], none⟩
  else
    ⟨[.log ("Unsupported workload type: " ++ kind)], none⟩

/-- Lines 331-344. The subprocess writes to the program's own standard output;
the returned error is ignored by every caller. -/
def getPodLogs (res : ExecResult) (podName ns : String) : Run :=
  ⟨[.exec ["kubectl", "logs", podName, "-n", ns] "" res.out res.err], none⟩

/-- The statement `exec.Command("kubectl", "delete", "pod", p, "-n", ns).Run()`
of lines 97, 100, 116, 119, whose error is discarded, with the log line after it. -/
def deletePod (resp : Option String) (podName ns : String) : Run :=
  ⟨[.exec ["kubectl", "delete", "pod", podName, "-n", ns] "" "" resp,
    .log ("Deleted data copy pod " ++ podName)], none⟩

/-! ## Discovery (lines 63-75) -/

/-- The three variables declared at line 63. -/
structure Discovery where
  podName : String
  ownerKind : String
  ownerName : String
deriving DecidableEq, Repr

/-- The inner loop over `pod.Spec.Volumes` (lines 65-74); its `break` leaves
this loop only. -/
def volumeLoop (oldPVC : String) (pod : Pod) : List Volume → Discovery → Discovery
  | [], d => d
  | vol :: vols, d =>
    if vol.persistentVolumeClaim = some oldPVC then
      match pod.ownerReferences with
      | o :: _ => ⟨pod.name, o.kind, o.name⟩
      | [] => ⟨pod.name, d.ownerKind, d.ownerName⟩
    else volumeLoop oldPVC pod vols d

/-- The outer loop over `podList.Items` (lines 64-75). -/
def podLoop (oldPVC : String) : List Pod → Discovery → Discovery
  | [], d => d
  | pod :: pods, d => podLoop oldPVC pods (volumeLoop oldPVC pod pod.volumes d)

/-- The values of `podName`, `ownerKind`, `ownerName` after the loop. -/
def discover (oldPVC : String) (pods : List Pod) : Discovery :=
  podLoop oldPVC pods ⟨"", "", ""⟩

/-! ## The collaborators' responses -/

/-- The responses received during one copy round, in call order. -/
structure RoundWorld where
  srcClear : Option String
  srcApply : Option String
  srcPhase : Nat → ExecResult
  dstClear : Option String
  srcIP : ExecResult
  dstApply : Option String
  dstPhase : Nat → ExecResult
  dstLogs : ExecResult
  dstDelete : Option String
  srcLogs : ExecResult
  srcDelete : Option String

/-- Everything `main` receives from outside, one field per call site. -/
structure World where
  configErr : Option String
  clientErr : Option String
  listErr : Option String
  pods : List Pod
  oldPVCAddr : String
  quiesce : Option String
  rnd : Nat → Nat
  createTmp : Option String
  round1 : RoundWorld
  deleteOld : Option String
  createOld : Option String
  round2 : RoundWorld
  deleteTmp : Option String
  resume : Option String

/-- Lines 48-61: the three set-up calls, each fatal on error. -/
def setupCall (ev : Option String → Event) (msg : String) (resp : Option String) : Run :=
  match resp with
  | some err => ⟨[ev (some err), .log (msg ++ err)], some (.exit 1)⟩
  | none => ⟨[ev none], none⟩

/-- Lines 77-79. The argument of `%s` is the flag pointer, not the string, so
the line shows the pointer's address. -/
def logNoPod (w : World) (d : Discovery) : Run :=
  if d.podName = "" then
    ⟨[.log ("No running pod found using PVC: %!s(*string=" ++ w.oldPVCAddr ++ ")")], none⟩
  else ⟨[], none⟩

/-- Lines 35-125. -/
def main (w : World) (f : Flags) (fuel : Nat) : Run :=
  if f.oldPVC = "" ∨ f.newSizeGi ≤ 0 ∨ f.newStorageClass = "" ∨ f.namespace_ = "" then
    ⟨[.println
      "Usage: --old-pvc <name> --size <Gi> --storage-class <class> --namespace <namespace>"],
      some (.exit 1)⟩
  else
    let tmpPVC := f.oldPVC ++ "-tmp"
    let srcPod := "src-pod"
    let dstPod := "dst-pod"
    let username := "root"
    let d := discover f.oldPVC w.pods
    let password := randomString w.rnd 12
    seqRuns [
      setupCall .buildConfig "Error building kubeconfig: " w.configErr,
      setupCall .newForConfig "Error creating Kubernetes client: " w.clientErr,
      setupCall (.listPods f.namespace_) "Error getting pods: " w.listErr,
      logNoPod w d,
      scaleWorkload w.quiesce d.ownerKind d.ownerName f.namespace_ 0,
      createPVC w.createTmp tmpPVC f.newSizeGi f.newStorageClass f.namespace_,
      startSourcePod w.round1.srcClear w.round1.srcApply f.oldPVC f.namespace_ srcPod f.sshPort
        "root" password,
      waitForPodRunning w.round1.srcPhase srcPod f.namespace_ fuel,
      startDestPod w.round1.dstClear w.round1.srcIP w.round1.dstApply tmpPVC f.namespace_ dstPod
        srcPod f.bwLimit f.sshPort "root" password,
      waitForPodSuccess w.round1.dstPhase dstPod f.namespace_ fuel,
      ⟨[.log "Sleep 20 before round 1 clean-up.", .sleep 20], none⟩,
      getPodLogs w.round1.dstLogs dstPod f.namespace_,
      deletePod w.round1.dstDelete dstPod f.namespace_,
      getPodLogs w.round1.srcLogs srcPod f.namespace_,
      deletePod w.round1.srcDelete srcPod f.namespace_,
      deletePVC w.deleteOld f.oldPVC f.namespace_,
      createPVC w.createOld f.oldPVC f.newSizeGi f.newStorageClass f.namespace_,
      ⟨[.sleep 20], none⟩,
      startSourcePod w.round2.srcClear w.round2.srcApply tmpPVC f.namespace_ srcPod f.sshPort
        username password,
      waitForPodRunning w.round2.srcPhase srcPod f.namespace_ fuel,
      startDestPod w.round2.dstClear w.round2.srcIP w.round2.dstApply f.oldPVC f.namespace_ dstPod
        srcPod f.bwLimit f.sshPort username password,
      waitForPodSuccess w.round2.dstPhase dstPod f.namespace_ fuel,
      ⟨[.log "Sleep 20 before round 2 clean-up.", .sleep 20], none⟩,
      getPodLogs w.round2.dstLogs dstPod f.namespace_,
      deletePod w.round2.dstDelete dstPod f.namespace_,
      getPodLogs w.round2.srcLogs srcPod f.namespace_,
      deletePod w.round2.srcDelete srcPod f.namespace_,
      deletePVC w.deleteTmp tmpPVC f.namespace_,
      scaleWorkload w.resume d.ownerKind d.ownerName f.namespace_ 1,
      ⟨[.log "PVC migration completed successfully."], none⟩]

/-! ## Vocabulary of the statements -/

/-- The trace of `n` unsuccessful polls starting at poll `i`: each query is
followed by the five second sleep. -/
def missTrace (polls : Nat → ExecResult) (podName ns : String) : Nat → Nat → List Event
  | 0, _ => []
  | n + 1, i =>
    .exec (phaseArgv podName ns) "" (polls i).out (polls i).err :: .sleep 5 ::
      missTrace polls podName ns n (i + 1)

/-- A poll sequence: a read error with empty output, then `Pending`, then `Succeeded`. -/
def samplePolls : Nat → ExecResult := fun i =>
  if i = 0 then ⟨"", some "exit status 1"⟩ else if i = 1 then ⟨"Pending", none⟩
  else ⟨" Succeeded\n", none⟩

/-- A poll sequence: a read error with empty output, then `Pending`, then `Running`. -/
def startingPolls : Nat → ExecResult := fun i =>
  if i = 0 then ⟨"", some "exit status 1"⟩ else if i = 1 then ⟨"Pending", none⟩
  else ⟨"Running", none⟩

/-- The poll sequence of a unit that stays `Failed`. -/
def failedPolls : Nat → ExecResult := fun _ => ⟨"Failed", none⟩

/-- Discovery as the specification words it: the first pod, in list order,
that has a volume referring to the claim, and that pod's first owner
reference. -/
def firstOwner (oldPVC : String) (pods : List Pod) : Discovery :=
  match pods.find? (fun pod => pod.volumes.any
      (fun vol => vol.persistentVolumeClaim == some oldPVC)) with
  | none => ⟨"", "", ""⟩
  | some pod =>
    match pod.ownerReferences with
    | o :: _ => ⟨pod.name, o.kind, o.name⟩
    | [] => ⟨pod.name, "", ""⟩

/-- Two pods mounting the claim `data0`, owned by different workloads. -/
def twoOwners : List Pod :=
  [⟨"web-0", [⟨some "data0"⟩], [⟨"Deployment", "app0"⟩]⟩,
   ⟨"db-0", [⟨none⟩, ⟨some "data0"⟩], [⟨"StatefulSet", "db"⟩]⟩]

/-- The event is a query of the phase of `podName` whose trimmed output is `phase`. -/
def observes (podName phase : String) : Event → Bool
  | .exec argv _ out _ => argv == phaseArgv podName (argv.getD 5 "") && TrimSpace out == phase
  | _ => false

/-- The event changes the cluster: a call of the typed client that patches,
creates or deletes, or a `kubectl delete` / `kubectl apply` subprocess. -/
def mutates : Event → Bool
  | .patchDeployment .. => true
  | .patchStatefulSet .. => true
  | .deleteDaemonSet .. => true
  | .createPVC .. => true
  | .deletePVC .. => true
  | .exec argv _ _ _ =>
    argv.take 2 == ["kubectl", "delete"] || argv.take 2 == ["kubectl", "apply"]
  | _ => false

/-- The steps of the migration: the events that change the cluster and the two
observations that end a wait (source unit `Running`, destination unit
`Succeeded`). Sleeps, log lines, log retrieval, address and phase queries
that do not end a wait are not steps. -/
def isStep (e : Event) : Bool :=
  mutates e || observes "src-pod" "Running" e || observes "dst-pod" "Succeeded" e

/-- Some poll among `polls i, ..., polls (i + fuel - 1)` shows `target`. -/
def reaches (target : String) (polls : Nat → ExecResult) : Nat → Nat → Bool
  | 0, _ => false
  | fuel + 1, i => TrimSpace (polls i).out == target || reaches target polls fuel (i + 1)

/-- The index of the first poll from `i` on that shows `target`, searching `fuel` polls. -/
def firstHit (target : String) (polls : Nat → ExecResult) : Nat → Nat → Nat
  | 0, i => i
  | fuel + 1, i =>
    if TrimSpace (polls i).out = target then i else firstHit target polls fuel (i + 1)

/-- The request passes the check of line 38. -/
def validFlags (f : Flags) : Prop :=
  f.oldPVC ≠ "" ∧ 0 < f.newSizeGi ∧ f.newStorageClass ≠ "" ∧ f.namespace_ ≠ ""

instance (f : Flags) : Decidable (validFlags f) := by
  unfold validFlags; infer_instance

/-- Every collaborator call of one round succeeds, and each awaited phase
shows up within `fuel` polls. -/
def RoundWorld.succeeds (r : RoundWorld) (fuel : Nat) : Prop :=
  r.srcClear = none ∧ r.srcApply = none ∧ reaches "Running" r.srcPhase fuel 0 = true ∧
  r.dstClear = none ∧ r.srcIP.err = none ∧ r.dstApply = none ∧
  reaches "Succeeded" r.dstPhase fuel 0 = true ∧
  r.dstLogs.err = none ∧ r.dstDelete = none ∧ r.srcLogs.err = none ∧ r.srcDelete = none

instance (r : RoundWorld) (fuel : Nat) : Decidable (r.succeeds fuel) := by
  unfold RoundWorld.succeeds; infer_instance

/-- Every collaborator call of the run succeeds. -/
def AllSucceed (w : World) (fuel : Nat) : Prop :=
  w.configErr = none ∧ w.clientErr = none ∧ w.listErr = none ∧ w.quiesce = none ∧
  w.createTmp = none ∧ w.round1.succeeds fuel ∧ w.deleteOld = none ∧ w.createOld = none ∧
  w.round2.succeeds fuel ∧ w.deleteTmp = none ∧ w.resume = none

instance (w : World) (fuel : Nat) : Decidable (AllSucceed w fuel) := by
  unfold AllSucceed; infer_instance

/-- The opening lines of a unit manifest: the unit's name and namespace. -/
def unitHeader (podName ns : String) : String :=
  "\napiVersion: v1\nkind: Pod\nmetadata:\n  name: " ++ podName ++ "\n  namespace: " ++ ns ++ "\n"

/-- The closing line of a unit manifest: the claim its volume is bound to. -/
def claimLine (pvc : String) : String := "      claimName: " ++ pvc ++ "\n"

/-- The manifest is that of unit `podName` in namespace `ns` and ends by
binding the unit's volume to claim `pvc`. -/
def launches (manifest podName ns pvc : String) : Bool :=
  (unitHeader podName ns).data.isPrefixOf manifest.data &&
  (claimLine pvc).data.isSuffixOf manifest.data

/-- Launching the source unit on claim `pvc`: remove any unit of that name,
then apply the source manifest. -/
def launchSource (pvc ns : String) (sshPort : Int) (password : String) : List Event :=
  [.exec ["kubectl", "delete", "pod", "src-pod", "-n", ns, "--ignore-not-found=true"] "" "" none,
   .exec ["kubectl", "apply", "-f", "-"]
     (sourcePodYAML pvc ns "src-pod" sshPort "root" password) "" none]

/-- Launching the destination unit on claim `pvc`: remove any unit of that
name, then apply the destination manifest, which carries the source address. -/
def launchDest (pvc ns : String) (bwLimit sshPort : Int) (password srcPodIP : String) :
    List Event :=
  [.exec ["kubectl", "delete", "pod", "dst-pod", "-n", ns, "--ignore-not-found=true"] "" "" none,
   .exec ["kubectl", "apply", "-f", "-"]
     (destPodYAML pvc ns "dst-pod" bwLimit sshPort "root" password srcPodIP) "" none]

/-- The poll that ends a wait: the first one showing `target`. -/
def awaited (target : String) (polls : Nat → ExecResult) (podName ns : String) (fuel : Nat) :
    Event :=
  .exec ["kubectl", "get", "pod", podName, "-n", ns, "-o", "jsonpath=\x7b.status.phase\x7d"] ""
    (polls (firstHit target polls fuel 0)).out (polls (firstHit target polls fuel 0)).err

/-- Deleting a unit during clean-up. -/
def deleteUnit (podName ns : String) : Event :=
  .exec ["kubectl", "delete", "pod", podName, "-n", ns] "" "" none

/-- The twenty steps between quiesce and resume of a run in which every call
succeeds: create `<old>-tmp`; launch the source unit on the old claim; see it
`Running`; launch the destination unit on `<old>-tmp`; see it `Succeeded`;
delete the destination unit; delete the source unit; delete the old claim;
create the claim again under the old name; then the same round from
`<old>-tmp` to the old name; delete `<old>-tmp`. -/
def coreSteps (w : World) (f : Flags) (fuel : Nat) : List Event :=
  let ns := f.namespace_
  let old := f.oldPVC
  let tmp := f.oldPVC ++ "-tmp"
  let password := randomString w.rnd 12
  [.createPVC ns tmp (storageQuantity f.newSizeGi) ["ReadWriteOnce"] f.newStorageClass none] ++
  launchSource old ns f.sshPort password ++
  [awaited "Running" w.round1.srcPhase "src-pod" ns fuel] ++
  launchDest tmp ns f.bwLimit f.sshPort password (TrimSpace w.round1.srcIP.out) ++
  [awaited "Succeeded" w.round1.dstPhase "dst-pod" ns fuel,
   deleteUnit "dst-pod" ns,
   deleteUnit "src-pod" ns,
   .deletePVC ns old none,
   .createPVC ns old (storageQuantity f.newSizeGi) ["ReadWriteOnce"] f.newStorageClass none] ++
  launchSource tmp ns f.sshPort password ++
  [awaited "Running" w.round2.srcPhase "src-pod" ns fuel] ++
  launchDest old ns f.bwLimit f.sshPort password (TrimSpace w.round2.srcIP.out) ++
  [awaited "Succeeded" w.round2.dstPhase "dst-pod" ns fuel,
   deleteUnit "dst-pod" ns,
   deleteUnit "src-pod" ns,
   .deletePVC ns tmp none]

/-- One round of responses in which every call succeeds; the source unit is
`Running` at the second poll and the destination unit `Succeeded` at the third. -/
def okRound (ip : String) : RoundWorld :=
  { srcClear := none, srcApply := none,
    srcPhase := fun i => if i = 0 then ⟨"Pending", none⟩ else ⟨"Running", none⟩,
    dstClear := none, srcIP := ⟨ip, none⟩, dstApply := none,
    dstPhase := fun i => if i < 2 then ⟨"Running", none⟩ else ⟨"Succeeded", none⟩,
    dstLogs := ⟨"", none⟩, dstDelete := none, srcLogs := ⟨"", none⟩, srcDelete := none }

/-- The scenario of the specification: claim `data0` is mounted by a pod of
Deployment `app0`, and every call succeeds. -/
def scenarioWorld : World :=
  { configErr := none, clientErr := none, listErr := none,
    pods := [⟨"app0-7d4b9c-x2x9p", [⟨none⟩, ⟨some "data0"⟩], [⟨"Deployment", "app0"⟩]⟩],
    oldPVCAddr := "0xc000012345", quiesce := none, rnd := fun i => 7 * i + 3,
    createTmp := none, round1 := okRound "10.0.0.5\n", deleteOld := none, createOld := none,
    round2 := okRound "10.0.0.6\n", deleteTmp := none, resume := none }

/-- The request of the scenario. -/
def scenarioFlags : Flags := ⟨5000, "data0", 20, "fast", "default", 2222⟩

/-- The scenario as a cluster presents it: the pod of Deployment `app0` that
mounts `data0` is owned by the Deployment's ReplicaSet. -/
def replicaSetWorld : World :=
  { scenarioWorld with
    pods := [⟨"app0-7d4b9c-x2x9p", [⟨none⟩, ⟨some "data0"⟩], [⟨"ReplicaSet", "app0-7d4b9c"⟩]⟩] }

/-- The scenario with no pod mounting the claim. -/
def unmountedWorld : World := { scenarioWorld with pods := [] }

/-- Events that neither act on a workload or a claim nor show the destination
unit `Succeeded`. -/
def quiet : Event → Bool
  | .patchDeployment .. => false
  | .patchStatefulSet .. => false
  | .deleteDaemonSet .. => false
  | .createPVC .. => false
  | .deletePVC .. => false
  | e => !observes "dst-pod" "Succeeded" e

/-- A run all of whose events are quiet. -/
def Quiet (r : Run) : Prop := ∀ e ∈ r.trace, quiet e = true

/-- Run a monitor over a trace: `step` consumes one event and either moves to
a new monitor state or rejects. -/
def monitor {σ : Type} (step : σ → Event → Option σ) : σ → List Event → Option σ
  | s, [] => some s
  | s, e :: es =>
    match step s e with
    | none => none
    | some s' => monitor step s' es

/-- From every monitor state satisfying `P` the monitor accepts the trace of
`r`; it ends in a state satisfying `Q` if `r` ran through, and in a state
satisfying `A h` if `r` halted with `h`. -/
def Accepts {σ : Type} (step : σ → Event → Option σ) (P : σ → Prop) (r : Run) (Q : σ → Prop)
    (A : Halt → σ → Prop) : Prop :=
  ∀ s, P s → ∃ s', monitor step s r.trace = some s' ∧ (r.halt = none → Q s') ∧
    (∀ h, r.halt = some h → A h s')

/-- The events that matter for the order of deletions. -/
inductive Mark where
  | succeeded
  | deleted (name : String) (ok : Bool)
  | created (name : String) (ok : Bool)
deriving DecidableEq, Repr

/-- The mark of an event: the destination unit observed `Succeeded`, a claim
deleted, a claim created (with whether the call succeeded); `none` otherwise. -/
def mark : Event → Option Mark
  | .deletePVC _ n err => some (.deleted n err.isNone)
  | .createPVC _ n _ _ _ err => some (.created n err.isNone)
  | e => if observes "dst-pod" "Succeeded" e then some .succeeded else none

/-- The marks of a forward round that has completed its wait. -/
def forwardMarks (tmp : String) : List Mark := [.created tmp true, .succeeded]

/-- The marks up to the completion of the back round's wait. -/
def backMarks (old tmp : String) : List Mark :=
  [.created tmp true, .succeeded, .deleted old true, .created old true, .succeeded]

/-- May mark `m` follow the marks `s`? -/
def okNext (old tmp : String) (s : List Mark) : Mark → Bool
  | .created n _ =>
    (n == tmp && s == []) || (n == old && s == forwardMarks tmp ++ [.deleted old true])
  | .succeeded =>
    s == [.created tmp true] ||
      s == forwardMarks tmp ++ [.deleted old true, .created old true]
  | .deleted n _ => (n == old && s == forwardMarks tmp) || (n == tmp && s == backMarks old tmp)

/-- The monitor of the order of marks: collects the marks and rejects a mark
that does not fit. -/
def markStep (old tmp : String) (s : List Mark) (e : Event) : Option (List Mark) :=
  match mark e with
  | none => some s
  | some m => if okNext old tmp s m then some (s ++ [m]) else none

/-- The effect of an event on the claims of the namespace, kept as the list of
their names: a successful creation adds the name, a successful deletion
removes it, everything else (failed calls included) leaves the claims alone. -/
def applyClaim (e : Event) (claims : List String) : List String :=
  match e with
  | .createPVC _ n _ _ _ none => n :: claims
  | .deletePVC _ n none => claims.filter (fun c => c ≠ n)
  | _ => claims

/-- The claims after a sequence of events. -/
def claimsAfter (trace : List Event) (claims : List String) : List String :=
  trace.foldl (fun c e => applyClaim e c) claims

/-- The monitor of canonical-name uniqueness: apply the event and reject if
more than one claim then bears the name `old`. -/
def claimStep (old : String) (claims : List String) (e : Event) : Option (List String) :=
  if (applyClaim e claims).count old ≤ 1 then some (applyClaim e claims) else none

/-- Events that are neither a claim creation nor a claim deletion. -/
def claimFree : Event → Bool
  | .createPVC .. => false
  | .deletePVC .. => false
  | _ => true

/-- The replica count requested by a patch event. -/
def patchReplicas : Event → Option Int
  | .patchDeployment _ _ r _ _ => some r
  | .patchStatefulSet _ _ r _ _ => some r
  | _ => none

/-- The replica count requested by the last patch of a trace: on a completed
run, the one of the resume step. -/
def resumeRequest (trace : List Event) : Option Int :=
  (trace.filterMap patchReplicas).getLast?

/-- The monitor that collects the requested replica counts. -/
def patchStep (s : List Int) (e : Event) : Option (List Int) :=
  some (s ++ (patchReplicas e).toList)

/-- The replica count of Deployment `app0` in the scenario of the specification. -/
def scenarioReplicas : Int := 3

/-- The scenario with claim `data0` mounted by a pod of DaemonSet `node-agent`:
the quiesce step has deleted the DaemonSet, so the deletion requested again at
the resume step reports that the object is not found. -/
def daemonWorld : World :=
  { scenarioWorld with
    pods := [⟨"node-agent-k8x2p", [⟨some "data0"⟩], [⟨"DaemonSet", "node-agent"⟩]⟩],
    resume := some "daemonsets.apps \"node-agent\" not found" }

/-- The monitor state for failed claim deletions: nothing has failed, a claim
deletion has just failed, the fatal line has been written. -/
inductive DelState where
  | alive
  | failed (name err : String)
  | dead
deriving DecidableEq, Repr

/-- After a failed claim deletion the only event accepted is the fatal log
line for it, and nothing is accepted after that. -/
def deleteStep : DelState → Event → Option DelState
  | .alive, .deletePVC _ n (some err) => some (.failed n err)
  | .alive, _ => some .alive
  | .failed n err, .log l =>
    if l = "Error deleting PVC " ++ n ++ ": " ++ err then some .dead else none
  | _, _ => none

/-- Two runs halt alike and look alike through the view `v`. -/
def SameView {β : Type} (v : Event → Option β) (r r' : Run) : Prop :=
  r.halt = r'.halt ∧ r.trace.filterMap v = r'.trace.filterMap v

/-- The event with the error of a `kubectl delete pod` subprocess blanked. -/
def blankPodDelete : Event → Option Event
  | .exec argv stdin out err =>
    if argv.take 3 = ["kubectl", "delete", "pod"] then some (.exec argv stdin out none)
    else some (.exec argv stdin out err)
  | e => some e

/-- The world `w` with other answers to the four clean-up deletions of units. -/
def withPodDeletes (w : World) (dst1 src1 dst2 src2 : Option String) : World :=
  { w with
    round1 := { w.round1 with dstDelete := dst1, srcDelete := src1 },
    round2 := { w.round2 with dstDelete := dst2, srcDelete := src2 } }

/-- The scenario in which the deletion of the destination unit after the
forward round fails. -/
def podDeleteFails : World :=
  withPodDeletes scenarioWorld (some "exit status 1") none none none

/-- The scenario in which the deletion of the old claim fails. -/
def claimDeleteFails : World :=
  { scenarioWorld with deleteOld := some "persistentvolumeclaims \"data0\" is forbidden" }

/-- The text that the program formats itself: the lines of `log.Printf`,
`log.Fatalf` and `log.Println`, and the usage line of `fmt.Println`. -/
def formatted : Event → Option String
  | .log l => some l
  | .println l => some l
  | _ => none

/-- Everything that reaches the program's standard output and standard error:
the text it formats itself and the unit logs that `getPodLogs` lets
`kubectl logs` write there (lines 333-337). -/
def written : Event → Option String
  | .log l => some l
  | .println l => some l
  | .exec argv _ out _ => if argv.take 2 = ["kubectl", "logs"] then some out else none
  | _ => none

/-- The manifests handed to `kubectl apply`. -/
def manifests (trace : List Event) : List String :=
  trace.filterMap fun e =>
    match e with
    | .exec argv stdin _ _ => if argv = ["kubectl", "apply", "-f", "-"] then some stdin else none
    | _ => none
/-- The world `w` with other random draws, hence another generated secret. -/
def withDraws (w : World) (rnd : Nat → Nat) : World := { w with rnd := rnd }

/-- The world `w` with other random draws and other unit logs: the errors,
phases and addresses answered are those of `w`. -/
def withSecretAndUnitLogs (w : World) (rnd : Nat → Nat) (dst1 src1 dst2 src2 : ExecResult) :
    World :=
  { w with
    rnd := rnd,
    round1 := { w.round1 with dstLogs := dst1, srcLogs := src1 },
    round2 := { w.round2 with dstLogs := dst2, srcLogs := src2 } }

/-- What the shell of a source unit, started with `-x`, traces of its commands. -/
def sourceUnitLog (password : String) : ExecResult :=
  ⟨"+ apk add --no-cache openssh rsync\n+ echo root:" ++ password ++ "\n+ chpasswd\n", none⟩

/-- What the shell of a destination unit, started with `-x`, traces of its commands. -/
def destUnitLog (password : String) : ExecResult :=
  ⟨"+ apk add --no-cache rsync openssh-client sshpass\n+ sshpass -p " ++ password ++
    " rsync -aHAXSv\n", none⟩

/-- The scenario with the given random draws, the units logging the trace of
their commands. -/
def tracedWorld (rnd : Nat → Nat) : World :=
  withSecretAndUnitLogs scenarioWorld rnd (destUnitLog (randomString rnd 12))
    (sourceUnitLog (randomString rnd 12)) (destUnitLog (randomString rnd 12))
    (sourceUnitLog (randomString rnd 12))

/-! ## Theorems -/

/-! ### The pollers -/

theorem pollLoop_first (target done : String) (polls : Nat → ExecResult) (podName ns : String) :
    ∀ (n fuel i : Nat), n < fuel → TrimSpace (polls (i + n)).out = target →
      (∀ m, m < n → TrimSpace (polls (i + m)).out ≠ target) →
      pollLoop target done polls podName ns fuel i =
        ⟨missTrace polls podName ns n i ++
          [.exec (phaseArgv podName ns) "" (polls (i + n)).out (polls (i + n)).err, .log done],
          none⟩ := by
  intro n
  induction n with
  | zero =>
    intro fuel i hlt hhit _
    cases fuel with
    | zero => omega
    | succ k =>
      have h : TrimSpace (polls i).out = target := by simpa using hhit
      simp [pollLoop, missTrace, h]
  | succ n ih =>
    intro fuel i hlt hhit hmiss
    cases fuel with
    | zero => omega
    | succ k =>
      have h0 : TrimSpace (polls i).out ≠ target := by simpa using hmiss 0 (by omega)
      have hrec := ih k (i + 1) (by omega)
        (by rw [show i + 1 + n = i + (n + 1) by omega]; exact hhit)
        (fun m hm => by
          rw [show i + 1 + m = i + (m + 1) by omega]; exact hmiss (m + 1) (by omega))
      rw [show i + 1 + n = i + (n + 1) by omega] at hrec
      simp [pollLoop, missTrace, h0, hrec]

theorem pollLoop_never (target done : String) (polls : Nat → ExecResult) (podName ns : String) :
    ∀ (fuel i : Nat), (∀ m, m < fuel → TrimSpace (polls (i + m)).out ≠ target) →
      pollLoop target done polls podName ns fuel i =
        ⟨missTrace polls podName ns fuel i, some .polling⟩ := by
  intro fuel
  induction fuel with
  | zero => intro i _; simp [pollLoop, missTrace]
  | succ k ih =>
    intro i hmiss
    have h0 : TrimSpace (polls i).out ≠ target := by simpa using hmiss 0 (by omega)
    have hrec := ih (i + 1) (fun m hm => by
      rw [show i + 1 + m = i + (m + 1) by omega]; exact hmiss (m + 1) (by omega))
    simp [pollLoop, missTrace, h0, hrec]

/-- C9: for every sequence of poll results, `waitForPodSuccess` (resp.
`waitForPodRunning`) returns exactly at the first poll whose trimmed output
is `Succeeded` (resp. `Running`), after one query and one sleep for each
earlier poll, whatever those polls returned and whether or not they carried a
read error; given any fuel above that index it does return. On a sequence
that never shows the target phase it is still polling after any number of
polls. -/
theorem C9_pollers_return_at_first_target (polls : Nat → ExecResult) (podName ns : String) :
    (∀ n fuel, n < fuel → TrimSpace (polls n).out = "Succeeded" →
      (∀ m, m < n → TrimSpace (polls m).out ≠ "Succeeded") →
      waitForPodSuccess polls podName ns fuel =
        ⟨missTrace polls podName ns n 0 ++
          [.exec (phaseArgv podName ns) "" (polls n).out (polls n).err,
           .log ("Pod " ++ podName ++ " completed successfully.")], none⟩) ∧
    (∀ n fuel, n < fuel → TrimSpace (polls n).out = "Running" →
      (∀ m, m < n → TrimSpace (polls m).out ≠ "Running") →
      waitForPodRunning polls podName ns fuel =
        ⟨missTrace polls podName ns n 0 ++
          [.exec (phaseArgv podName ns) "" (polls n).out (polls n).err,
           .log ("Pod " ++ podName ++ " is now running.")], none⟩) ∧
    ((∀ n, TrimSpace (polls n).out ≠ "Succeeded") →
      ∀ fuel, waitForPodSuccess polls podName ns fuel =
        ⟨missTrace polls podName ns fuel 0, some .polling⟩) ∧
    ((∀ n, TrimSpace (polls n).out ≠ "Running") →
      ∀ fuel, waitForPodRunning polls podName ns fuel =
        ⟨missTrace polls podName ns fuel 0, some .polling⟩) := by
  refine ⟨?_, ?_, ?_, ?_⟩
  · intro n fuel hlt hhit hmiss
    have h := pollLoop_first "Succeeded" ("Pod " ++ podName ++ " completed successfully.")
      polls podName ns n fuel 0 hlt (by simpa using hhit) (by simpa using hmiss)
    simpa [waitForPodSuccess] using h
  · intro n fuel hlt hhit hmiss
    have h := pollLoop_first "Running" ("Pod " ++ podName ++ " is now running.")
      polls podName ns n fuel 0 hlt (by simpa using hhit) (by simpa using hmiss)
    simpa [waitForPodRunning] using h
  · intro hnever fuel
    have h := pollLoop_never "Succeeded" ("Pod " ++ podName ++ " completed successfully.")
      polls podName ns fuel 0 (fun m _ => by simpa using hnever m)
    simpa [waitForPodSuccess] using h
  · intro hnever fuel
    have h := pollLoop_never "Running" ("Pod " ++ podName ++ " is now running.")
      polls podName ns fuel 0 (fun m _ => by simpa using hnever m)
    simpa [waitForPodRunning] using h

/-- Witness for C9: a read error and a `Pending` poll are skipped and the
third poll ends each wait; a unit that stays `Failed` is still being polled
after seven polls. -/
theorem C9_pollers_witness :
    waitForPodSuccess samplePolls "dst-pod" "default" 5 =
      ⟨missTrace samplePolls "dst-pod" "default" 2 0 ++
        [.exec (phaseArgv "dst-pod" "default") "" " Succeeded\n" none,
         .log "Pod dst-pod completed successfully."], none⟩ ∧
    waitForPodRunning startingPolls "src-pod" "default" 3 =
      ⟨missTrace startingPolls "src-pod" "default" 2 0 ++
        [.exec (phaseArgv "src-pod" "default") "" "Running" none,
         .log "Pod src-pod is now running."], none⟩ ∧
    waitForPodSuccess failedPolls "dst-pod" "default" 7 =
      ⟨missTrace failedPolls "dst-pod" "default" 7 0, some .polling⟩ ∧
    waitForPodRunning failedPolls "src-pod" "default" 7 =
      ⟨missTrace failedPolls "src-pod" "default" 7 0, some .polling⟩ :=
  ⟨(C9_pollers_return_at_first_target samplePolls "dst-pod" "default").1 2 5
      (by decide) (by decide) (by decide),
   (C9_pollers_return_at_first_target startingPolls "src-pod" "default").2.1 2 3
      (by decide) (by decide) (by decide),
   (C9_pollers_return_at_first_target failedPolls "dst-pod" "default").2.2.1
      (fun _ => (by decide : TrimSpace "Failed" ≠ "Succeeded")) 7,
   (C9_pollers_return_at_first_target failedPolls "src-pod" "default").2.2.2
      (fun _ => (by decide : TrimSpace "Failed" ≠ "Running")) 7⟩

/-! ### Claim creation -/

theorem storageQuantity_eq (size : Int) (h0 : 0 < size) (h1 : size < 2 ^ 33) :
    storageQuantity size = size * 2 ^ 30 := by
  unfold storageQuantity mul64 wrap64
  omega

/-- C6 (amended): for every size in GiB with `0 < sizeGiB < 2^33`, the claim
that `createPVC` requests has a storage request of exactly `sizeGiB * 2^30`
bytes (the `int64` product does not wrap), the single access mode
`ReadWriteOnce`, and the given storage class. -/
theorem C6_createPVC_request (resp : Option String) (name storageClass ns : String) (size : Int)
    (h0 : 0 < size) (h1 : size < 2 ^ 33) :
    (createPVC resp name size storageClass ns).trace.head? =
      some (.createPVC ns name (size * 2 ^ 30) ["ReadWriteOnce"] storageClass resp) := by
  cases resp <;> simp [createPVC, storageQuantity_eq size h0 h1]

/-- Witness for C6: the request for 20 GiB. -/
theorem C6_createPVC_request_witness :
    (createPVC none "data0-tmp" 20 "fast" "default").trace.head? =
      some (.createPVC "default" "data0-tmp" (20 * 2 ^ 30) ["ReadWriteOnce"] "fast" none) :=
  C6_createPVC_request none "data0-tmp" "fast" "default" 20 (by decide) (by decide)

/-- Counterexample for C6 as stated: `2^33` GiB is positive and fits the 64-bit
flag, yet the product wraps to `-2^63`. -/
theorem C6_createPVC_wraps :
    (0 : Int) < 8589934592 ∧ (8589934592 : Int) < 2 ^ 63 ∧
    (createPVC none "data0-tmp" 8589934592 "fast" "default").trace.head? =
      some (.createPVC "default" "data0-tmp" (-9223372036854775808) ["ReadWriteOnce"] "fast"
        none) ∧
    (-9223372036854775808 : Int) ≠ 8589934592 * 2 ^ 30 := by
  decide

/-! ### Discovery -/

/-- C5, the code at the failing input: with two pods mounting the claim, the
reference computed by the loop is the one of the second pod, not the first
owner reference of the first pod that the specification describes. -/
theorem C5_discover_later_pod_wins :
    discover "data0" twoOwners = ⟨"db-0", "StatefulSet", "db"⟩ ∧
    firstOwner "data0" twoOwners = ⟨"web-0", "Deployment", "app0"⟩ ∧
    discover "data0" twoOwners ≠ firstOwner "data0" twoOwners := by
  decide

/-! ### Runs in which nothing halts -/

theorem seqRuns_all_none : ∀ (l : List Run), (∀ r ∈ l, r.halt = none) →
    seqRuns l = ⟨(l.map Run.trace).flatten, none⟩ := by
  intro l
  induction l with
  | nil => intro _; rfl
  | cons r rs ih =>
    intro h
    have hr : r.halt = none := h r (by simp)
    have hrs := ih (fun x hx => h x (by simp [hx]))
    simp [seqRuns, hr, hrs]

theorem firstHit_shows (target : String) (polls : Nat → ExecResult) :
    ∀ fuel i, reaches target polls fuel i = true →
      TrimSpace (polls (firstHit target polls fuel i)).out = target := by
  intro fuel
  induction fuel with
  | zero => intro i h; simp [reaches] at h
  | succ k ih =>
    intro i h
    by_cases hi : TrimSpace (polls i).out = target
    · simp [firstHit, hi]
    · have hk : reaches target polls k (i + 1) = true := by simpa [reaches, hi] using h
      simpa [firstHit, hi] using ih (i + 1) hk

theorem pollLoop_reaches_halt (target done : String) (polls : Nat → ExecResult)
    (podName ns : String) :
    ∀ fuel i, reaches target polls fuel i = true →
      (pollLoop target done polls podName ns fuel i).halt = none := by
  intro fuel
  induction fuel with
  | zero => intro i h; simp [reaches] at h
  | succ k ih =>
    intro i h
    by_cases hi : TrimSpace (polls i).out = target
    · simp [pollLoop, hi]
    · have hk : reaches target polls k (i + 1) = true := by simpa [reaches, hi] using h
      simpa [pollLoop, hi] using ih (i + 1) hk

theorem pollLoop_steps_src (done : String) (polls : Nat → ExecResult) (ns : String) :
    ∀ fuel i, reaches "Running" polls fuel i = true →
      (pollLoop "Running" done polls "src-pod" ns fuel i).trace.filter isStep =
        [.exec (phaseArgv "src-pod" ns) "" (polls (firstHit "Running" polls fuel i)).out
          (polls (firstHit "Running" polls fuel i)).err] := by
  intro fuel
  induction fuel with
  | zero => intro i h; simp [reaches] at h
  | succ k ih =>
    intro i h
    by_cases hi : TrimSpace (polls i).out = "Running"
    · simp [pollLoop, firstHit, hi, isStep, mutates, observes, phaseArgv]
    · have hk : reaches "Running" polls k (i + 1) = true := by simpa [reaches, hi] using h
      have hrec := ih (i + 1) hk
      simp [pollLoop, firstHit, hi, isStep, mutates, observes, phaseArgv] at hrec ⊢
      exact hrec

theorem pollLoop_steps_dst (done : String) (polls : Nat → ExecResult) (ns : String) :
    ∀ fuel i, reaches "Succeeded" polls fuel i = true →
      (pollLoop "Succeeded" done polls "dst-pod" ns fuel i).trace.filter isStep =
        [.exec (phaseArgv "dst-pod" ns) "" (polls (firstHit "Succeeded" polls fuel i)).out
          (polls (firstHit "Succeeded" polls fuel i)).err] := by
  intro fuel
  induction fuel with
  | zero => intro i h; simp [reaches] at h
  | succ k ih =>
    intro i h
    by_cases hi : TrimSpace (polls i).out = "Succeeded"
    · simp [pollLoop, firstHit, hi, isStep, mutates, observes, phaseArgv]
    · have hk : reaches "Succeeded" polls k (i + 1) = true := by simpa [reaches, hi] using h
      have hrec := ih (i + 1) hk
      simp [pollLoop, firstHit, hi, isStep, mutates, observes, phaseArgv] at hrec ⊢
      exact hrec

theorem scaleWorkload_none_halt (kind name ns : String) (replicas : Int) :
    (scaleWorkload none kind name ns replicas).halt = none := by
  unfold scaleWorkload
  split
  · rfl
  · split
    · rfl
    · split <;> rfl

theorem logNoPod_steps (w : World) (d : Discovery) :
    (logNoPod w d).halt = none ∧ (logNoPod w d).trace.filter isStep = [] := by
  unfold logNoPod
  split <;> simp [isStep, mutates, observes]

theorem main_steps (w : World) (f : Flags) (fuel : Nat) (hv : validFlags f)
    (hs : AllSucceed w fuel) :
    (main w f fuel).halt = none ∧
    (main w f fuel).trace.filter isStep =
      (scaleWorkload none (discover f.oldPVC w.pods).ownerKind
        (discover f.oldPVC w.pods).ownerName f.namespace_ 0).trace.filter isStep ++
      (coreSteps w f fuel ++
      (scaleWorkload none (discover f.oldPVC w.pods).ownerKind
        (discover f.oldPVC w.pods).ownerName f.namespace_ 1).trace.filter isStep) := by
  obtain ⟨hv1, hv2, hv3, hv4⟩ := hv
  obtain ⟨h1, h2, h3, h4, h5, hr1, h6, h7, hr2, h8, h9⟩ := hs
  obtain ⟨a1, a2, a3, a4, a5, a6, a7, a8, a9, a10, a11⟩ := hr1
  obtain ⟨b1, b2, b3, b4, b5, b6, b7, b8, b9, b10, b11⟩ := hr2
  have hcond : ¬ (f.oldPVC = "" ∨ f.newSizeGi ≤ 0 ∨ f.newStorageClass = "" ∨
      f.namespace_ = "") := by
    simp [hv1, hv3, hv4]; omega
  have hq := scaleWorkload_none_halt (discover f.oldPVC w.pods).ownerKind
    (discover f.oldPVC w.pods).ownerName f.namespace_ 0
  have hres := scaleWorkload_none_halt (discover f.oldPVC w.pods).ownerKind
    (discover f.oldPVC w.pods).ownerName f.namespace_ 1
  have p1 := pollLoop_reaches_halt "Running" "Pod src-pod is now running."
    w.round1.srcPhase "src-pod" f.namespace_ fuel 0 a3
  have p2 := pollLoop_reaches_halt "Succeeded" "Pod dst-pod completed successfully."
    w.round1.dstPhase "dst-pod" f.namespace_ fuel 0 a7
  have p3 := pollLoop_reaches_halt "Running" "Pod src-pod is now running."
    w.round2.srcPhase "src-pod" f.namespace_ fuel 0 b3
  have p4 := pollLoop_reaches_halt "Succeeded" "Pod dst-pod completed successfully."
    w.round2.dstPhase "dst-pod" f.namespace_ fuel 0 b7
  have s1 := pollLoop_steps_src "Pod src-pod is now running."
    w.round1.srcPhase f.namespace_ fuel 0 a3
  have s2 := pollLoop_steps_dst "Pod dst-pod completed successfully."
    w.round1.dstPhase f.namespace_ fuel 0 a7
  have s3 := pollLoop_steps_src "Pod src-pod is now running."
    w.round2.srcPhase f.namespace_ fuel 0 b3
  have s4 := pollLoop_steps_dst "Pod dst-pod completed successfully."
    w.round2.dstPhase f.namespace_ fuel 0 b7
  have hl := logNoPod_steps w (discover f.oldPVC w.pods)
  unfold main
  rw [if_neg hcond]
  rw [seqRuns_all_none]
  · refine ⟨rfl, ?_⟩
    simp [List.filter_append, hl.2, s1, s2, s3, s4, waitForPodRunning, waitForPodSuccess,
      h1, h2, h3, h4, h5, h6, h7, h8, h9, a1, a2, a4, a5, a6, a8, a9, a10, a11,
      b1, b2, b4, b5, b6, b8, b9, b10, b11, setupCall, createPVC, startSourcePod,
      startDestPod, getPodLogs, deletePod, deletePVC, coreSteps, launchSource, launchDest,
      awaited, deleteUnit, isStep, mutates, observes, phaseArgv]
  · intro r hr
    simp only [List.mem_cons, List.mem_singleton, List.not_mem_nil, or_false] at hr
    rcases hr with rfl | rfl | rfl | rfl | rfl | rfl | rfl | rfl | rfl | rfl | rfl | rfl | rfl |
      rfl | rfl | rfl | rfl | rfl | rfl | rfl | rfl | rfl | rfl | rfl | rfl | rfl | rfl | rfl |
      rfl | rfl <;>
    simp [hq, hres, hl.1, p1, p2, p3, p4, waitForPodRunning, waitForPodSuccess,
      h1, h2, h3, h4, h5, h6, h7, h8, h9, a1, a2, a4, a5, a6, a8, a9, a10, a11,
      b1, b2, b4, b5, b6, b8, b9, b10, b11, setupCall, createPVC, startSourcePod,
      startDestPod, getPodLogs, deletePod, deletePVC]

theorem patchBody_zero : patchBody 0 = "\x7b\"spec\":\x7b\"replicas\":0\x7d\x7d" := by decide

theorem patchBody_one : patchBody 1 = "\x7b\"spec\":\x7b\"replicas\":1\x7d\x7d" := by decide

theorem launches_of_shape (manifest podName ns pvc body : String)
    (h : manifest = unitHeader podName ns ++ body ++ claimLine pvc) :
    launches manifest podName ns pvc = true := by
  subst h
  simp only [launches, Bool.and_eq_true, List.isPrefixOf_iff_prefix, List.isSuffixOf_iff_suffix]
  constructor
  · rw [String.append_assoc, String.data_append]
    exact List.prefix_append _ _
  · rw [String.data_append]
    exact List.suffix_append _ _

theorem launches_sourcePodYAML (pvc ns podName : String) (sshPort : Int)
    (username password : String) :
    launches (sourcePodYAML pvc ns podName sshPort username password) podName ns pvc = true := by
  apply launches_of_shape _ _ _ _
    ("spec:\n  containers:\n  - name: ssh-server\n    image: alpine:latest\n" ++
     "    command: [\"/bin/sh\", \"-x\", \"-c\"]\n    args:\n      - |\n" ++
     "        apk add --no-cache openssh rsync &&\n        echo \"" ++ username ++ ":" ++
     password ++ "\" | chpasswd &&\n" ++
     "        sed -i \x27s/#PermitRootLogin prohibit-password/PermitRootLogin yes/\x27 /etc/ssh/sshd_config &&\n" ++
     "        ssh-keygen -A &&\n        /usr/sbin/sshd -D -e -p " ++ fmtD sshPort ++
     "\n    volumeMounts:\n    - name: src-volume\n      mountPath: /mnt/data\n" ++
     "  restartPolicy: Always\n  volumes:\n  - name: src-volume\n    persistentVolumeClaim:\n")
  simp only [sourcePodYAML, unitHeader, claimLine, String.append_assoc]

theorem launches_destPodYAML (pvc ns podName : String) (bwLimit sshPort : Int)
    (username password srcPodIP : String) :
    launches (destPodYAML pvc ns podName bwLimit sshPort username password srcPodIP)
      podName ns pvc = true := by
  apply launches_of_shape _ _ _ _
    ("spec:\n  containers:\n  - name: rsync-client\n    image: alpine:latest\n" ++
     "    command: [\"/bin/sh\", \"-x\", \"-c\"]\n    args:\n      - |\n" ++
     "        apk add --no-cache rsync openssh-client sshpass &&\n        sshpass -p " ++
     password ++ " rsync -aHAXSv --bwlimit=" ++ fmtD bwLimit ++ " --progress -e \"ssh -p " ++
     fmtD sshPort ++ " -o StrictHostKeyChecking=no\" " ++ username ++ "@" ++ srcPodIP ++
     ":/mnt/data/ /mnt/data/" ++
     "\n    volumeMounts:\n    - name: dst-volume\n      mountPath: /mnt/data\n" ++
     "  restartPolicy: Never\n  volumes:\n  - name: dst-volume\n    persistentVolumeClaim:\n")
  simp only [destPodYAML, unitHeader, claimLine, String.append_assoc]

/-- C1 (amended): for every valid request and every run in which all
collaborator calls succeed, `main` runs to completion and performs exactly
these twenty steps: create `<old>-tmp`; launch the source unit on the old
claim; see the source unit `Running`; launch the destination unit on
`<old>-tmp`; see the destination unit `Succeeded`; delete the destination
unit; delete the source unit; delete the old claim; create a claim under the
original name; launch the source unit on `<old>-tmp`; see it `Running`; launch
the destination unit on the original-named claim; see it `Succeeded`; delete
the destination unit; delete the source unit; delete `<old>-tmp`. When the
discovered workload is a Deployment or a StatefulSet they are preceded by the
patch of its replica count to 0 and followed by the patch to 1; when it is a
DaemonSet they are preceded by the deletion of the DaemonSet; when the kind is
any other (a ReplicaSet, or none because no pod mounts the claim) there is no
quiesce and no resume step. Each manifest applied is that of the named unit
and binds its volume to the named claim, and in both rounds the source unit
is seen `Running` before the destination unit is created. -/
theorem C1_step_sequence (w : World) (f : Flags) (fuel : Nat) (hv : validFlags f)
    (hs : AllSucceed w fuel) :
    (main w f fuel).halt = none ∧
    ((discover f.oldPVC w.pods).ownerKind = "Deployment" →
      (main w f fuel).trace.filter isStep =
        .patchDeployment f.namespace_ (discover f.oldPVC w.pods).ownerName 0
            "\x7b\"spec\":\x7b\"replicas\":0\x7d\x7d" none ::
          coreSteps w f fuel ++
        [.patchDeployment f.namespace_ (discover f.oldPVC w.pods).ownerName 1
            "\x7b\"spec\":\x7b\"replicas\":1\x7d\x7d" none]) ∧
    ((discover f.oldPVC w.pods).ownerKind = "StatefulSet" →
      (main w f fuel).trace.filter isStep =
        .patchStatefulSet f.namespace_ (discover f.oldPVC w.pods).ownerName 0
            "\x7b\"spec\":\x7b\"replicas\":0\x7d\x7d" none ::
          coreSteps w f fuel ++
        [.patchStatefulSet f.namespace_ (discover f.oldPVC w.pods).ownerName 1
            "\x7b\"spec\":\x7b\"replicas\":1\x7d\x7d" none]) ∧
    ((discover f.oldPVC w.pods).ownerKind = "DaemonSet" →
      .deleteDaemonSet f.namespace_ (discover f.oldPVC w.pods).ownerName none ::
        coreSteps w f fuel <+: (main w f fuel).trace.filter isStep) ∧
    ((discover f.oldPVC w.pods).ownerKind ≠ "Deployment" →
      (discover f.oldPVC w.pods).ownerKind ≠ "StatefulSet" →
      (discover f.oldPVC w.pods).ownerKind ≠ "DaemonSet" →
      (main w f fuel).trace.filter isStep = coreSteps w f fuel) ∧
    launches (sourcePodYAML f.oldPVC f.namespace_ "src-pod" f.sshPort "root"
      (randomString w.rnd 12)) "src-pod" f.namespace_ f.oldPVC = true ∧
    launches (destPodYAML (f.oldPVC ++ "-tmp") f.namespace_ "dst-pod" f.bwLimit f.sshPort "root"
      (randomString w.rnd 12) (TrimSpace w.round1.srcIP.out))
      "dst-pod" f.namespace_ (f.oldPVC ++ "-tmp") = true ∧
    launches (sourcePodYAML (f.oldPVC ++ "-tmp") f.namespace_ "src-pod" f.sshPort "root"
      (randomString w.rnd 12)) "src-pod" f.namespace_ (f.oldPVC ++ "-tmp") = true ∧
    launches (destPodYAML f.oldPVC f.namespace_ "dst-pod" f.bwLimit f.sshPort "root"
      (randomString w.rnd 12) (TrimSpace w.round2.srcIP.out))
      "dst-pod" f.namespace_ f.oldPVC = true ∧
    observes "src-pod" "Running"
      (awaited "Running" w.round1.srcPhase "src-pod" f.namespace_ fuel) = true ∧
    observes "dst-pod" "Succeeded"
      (awaited "Succeeded" w.round1.dstPhase "dst-pod" f.namespace_ fuel) = true ∧
    observes "src-pod" "Running"
      (awaited "Running" w.round2.srcPhase "src-pod" f.namespace_ fuel) = true ∧
    observes "dst-pod" "Succeeded"
      (awaited "Succeeded" w.round2.dstPhase "dst-pod" f.namespace_ fuel) = true := by
  have hm := main_steps w f fuel hv hs
  obtain ⟨_, _, _, _, _, hr1, _, _, hr2, _, _⟩ := hs
  obtain ⟨_, _, a3, _, _, _, a7, _⟩ := hr1
  obtain ⟨_, _, b3, _, _, _, b7, _⟩ := hr2
  refine ⟨hm.1, ?_, ?_, ?_, ?_, launches_sourcePodYAML _ _ _ _ _ _,
    launches_destPodYAML _ _ _ _ _ _ _ _, launches_sourcePodYAML _ _ _ _ _ _,
    launches_destPodYAML _ _ _ _ _ _ _ _, ?_, ?_, ?_, ?_⟩
  · intro hk
    rw [hm.2, hk]
    simp [scaleWorkload, isStep, mutates, observes, patchBody_zero, patchBody_one]
  · intro hk
    rw [hm.2, hk]
    simp [scaleWorkload, isStep, mutates, observes, patchBody_zero, patchBody_one]
  · intro hk
    rw [hm.2, hk]
    simp [scaleWorkload, isStep, mutates, observes]
  · intro h1 h2 h3
    rw [hm.2]
    simp [scaleWorkload, isStep, mutates, observes, h1, h2, h3]
  · simp [observes, awaited, phaseArgv, firstHit_shows _ _ _ _ a3]
  · simp [observes, awaited, phaseArgv, firstHit_shows _ _ _ _ a7]
  · simp [observes, awaited, phaseArgv, firstHit_shows _ _ _ _ b3]
  · simp [observes, awaited, phaseArgv, firstHit_shows _ _ _ _ b7]

set_option maxRecDepth 100000 in
/-- Witness for C1: the scenario of the specification (claim `data0`, 20 GiB,
class `fast`, bandwidth 5000, port 2222, Deployment `app0`): the run completes
and its steps, written out with the text of the four manifests, are the patch
to 0, the twenty steps, and the patch to 1. -/
theorem C1_step_sequence_witness :
    (main scenarioWorld scenarioFlags 5).halt = none ∧
    (main scenarioWorld scenarioFlags 5).trace.filter isStep =
      [.patchDeployment "default" "app0" 0 "\x7b\"spec\":\x7b\"replicas\":0\x7d\x7d" none,
       .createPVC "default" "data0-tmp" 21474836480 ["ReadWriteOnce"] "fast" none,
       .exec ["kubectl", "delete", "pod", "src-pod", "-n", "default", "--ignore-not-found=true"]
         "" "" none,
       .exec ["kubectl", "apply", "-f", "-"]
         "\napiVersion: v1\nkind: Pod\nmetadata:\n  name: src-pod\n  namespace: default\nspec:\n  containers:\n  - name: ssh-server\n    image: alpine:latest\n    command: [\"/bin/sh\", \"-x\", \"-c\"]\n    args:\n      - |\n        apk add --no-cache openssh rsync &&\n        echo \"root:dkryFMT07els\" | chpasswd &&\n        sed -i \x27s/#PermitRootLogin prohibit-password/PermitRootLogin yes/\x27 /etc/ssh/sshd_config &&\n        ssh-keygen -A &&\n        /usr/sbin/sshd -D -e -p 2222\n    volumeMounts:\n    - name: src-volume\n      mountPath: /mnt/data\n  restartPolicy: Always\n  volumes:\n  - name: src-volume\n    persistentVolumeClaim:\n      claimName: data0\n"
         "" none,
       .exec ["kubectl", "get", "pod", "src-pod", "-n", "default", "-o", "jsonpath=\x7b.status.phase\x7d"]
         "" "Running" none,
       .exec ["kubectl", "delete", "pod", "dst-pod", "-n", "default", "--ignore-not-found=true"]
         "" "" none,
       .exec ["kubectl", "apply", "-f", "-"]
         "\napiVersion: v1\nkind: Pod\nmetadata:\n  name: dst-pod\n  namespace: default\nspec:\n  containers:\n  - name: rsync-client\n    image: alpine:latest\n    command: [\"/bin/sh\", \"-x\", \"-c\"]\n    args:\n      - |\n        apk add --no-cache rsync openssh-client sshpass &&\n        sshpass -p dkryFMT07els rsync -aHAXSv --bwlimit=5000 --progress -e \"ssh -p 2222 -o StrictHostKeyChecking=no\" root@10.0.0.5:/mnt/data/ /mnt/data/\n    volumeMounts:\n    - name: dst-volume\n      mountPath: /mnt/data\n  restartPolicy: Never\n  volumes:\n  - name: dst-volume\n    persistentVolumeClaim:\n      claimName: data0-tmp\n"
         "" none,
       .exec ["kubectl", "get", "pod", "dst-pod", "-n", "default", "-o", "jsonpath=\x7b.status.phase\x7d"]
         "" "Succeeded" none,
       .exec ["kubectl", "delete", "pod", "dst-pod", "-n", "default"] "" "" none,
       .exec ["kubectl", "delete", "pod", "src-pod", "-n", "default"] "" "" none,
       .deletePVC "default" "data0" none,
       .createPVC "default" "data0" 21474836480 ["ReadWriteOnce"] "fast" none,
       .exec ["kubectl", "delete", "pod", "src-pod", "-n", "default", "--ignore-not-found=true"]
         "" "" none,
       .exec ["kubectl", "apply", "-f", "-"]
         "\napiVersion: v1\nkind: Pod\nmetadata:\n  name: src-pod\n  namespace: default\nspec:\n  containers:\n  - name: ssh-server\n    image: alpine:latest\n    command: [\"/bin/sh\", \"-x\", \"-c\"]\n    args:\n      - |\n        apk add --no-cache openssh rsync &&\n        echo \"root:dkryFMT07els\" | chpasswd &&\n        sed -i \x27s/#PermitRootLogin prohibit-password/PermitRootLogin yes/\x27 /etc/ssh/sshd_config &&\n        ssh-keygen -A &&\n        /usr/sbin/sshd -D -e -p 2222\n    volumeMounts:\n    - name: src-volume\n      mountPath: /mnt/data\n  restartPolicy: Always\n  volumes:\n  - name: src-volume\n    persistentVolumeClaim:\n      claimName: data0-tmp\n"
         "" none,
       .exec ["kubectl", "get", "pod", "src-pod", "-n", "default", "-o", "jsonpath=\x7b.status.phase\x7d"]
         "" "Running" none,
       .exec ["kubectl", "delete", "pod", "dst-pod", "-n", "default", "--ignore-not-found=true"]
         "" "" none,
       .exec ["kubectl", "apply", "-f", "-"]
         "\napiVersion: v1\nkind: Pod\nmetadata:\n  name: dst-pod\n  namespace: default\nspec:\n  containers:\n  - name: rsync-client\n    image: alpine:latest\n    command: [\"/bin/sh\", \"-x\", \"-c\"]\n    args:\n      - |\n        apk add --no-cache rsync openssh-client sshpass &&\n        sshpass -p dkryFMT07els rsync -aHAXSv --bwlimit=5000 --progress -e \"ssh -p 2222 -o StrictHostKeyChecking=no\" root@10.0.0.6:/mnt/data/ /mnt/data/\n    volumeMounts:\n    - name: dst-volume\n      mountPath: /mnt/data\n  restartPolicy: Never\n  volumes:\n  - name: dst-volume\n    persistentVolumeClaim:\n      claimName: data0\n"
         "" none,
       .exec ["kubectl", "get", "pod", "dst-pod", "-n", "default", "-o", "jsonpath=\x7b.status.phase\x7d"]
         "" "Succeeded" none,
       .exec ["kubectl", "delete", "pod", "dst-pod", "-n", "default"] "" "" none,
       .exec ["kubectl", "delete", "pod", "src-pod", "-n", "default"] "" "" none,
       .deletePVC "default" "data0-tmp" none,
       .patchDeployment "default" "app0" 1 "\x7b\"spec\":\x7b\"replicas\":1\x7d\x7d" none] :=
  ⟨(C1_step_sequence scenarioWorld scenarioFlags 5 (by decide) (by decide)).1,
   ((C1_step_sequence scenarioWorld scenarioFlags 5 (by decide) (by decide)).2.1
      (by decide)).trans (by decide)⟩

set_option maxRecDepth 100000 in
/-- Counterexample for C1 as stated: in a cluster the pod of a Deployment is
owned by its ReplicaSet; the request is valid, every call succeeds, and the
run completes with twenty steps, from the creation of `data0-tmp` to its
deletion: no workload is quiesced and none is resumed. The same happens when
no pod mounts the claim. -/
theorem C1_no_quiesce_for_other_kinds :
    validFlags scenarioFlags ∧ AllSucceed replicaSetWorld 5 ∧
    (discover scenarioFlags.oldPVC replicaSetWorld.pods).ownerKind = "ReplicaSet" ∧
    (main replicaSetWorld scenarioFlags 5).halt = none ∧
    ((main replicaSetWorld scenarioFlags 5).trace.filter isStep).length = 20 ∧
    ((main replicaSetWorld scenarioFlags 5).trace.filter isStep).head? =
      some (.createPVC "default" "data0-tmp" 21474836480 ["ReadWriteOnce"] "fast" none) ∧
    ((main replicaSetWorld scenarioFlags 5).trace.filter isStep).getLast? =
      some (.deletePVC "default" "data0-tmp" none) ∧
    Event.log "Unsupported workload type: ReplicaSet" ∈
      (main replicaSetWorld scenarioFlags 5).trace ∧
    AllSucceed unmountedWorld 5 ∧
    (main unmountedWorld scenarioFlags 5).halt = none ∧
    ((main unmountedWorld scenarioFlags 5).trace.filter isStep).length = 20 := by
  decide

/-! ### Monitors over traces -/

section Monitor
variable {σ : Type}

theorem monitor_append (step : σ → Event → Option σ) (s : σ) (a b : List Event) :
    monitor step s (a ++ b) = (monitor step s a).bind (fun s' => monitor step s' b) := by
  induction a generalizing s with
  | nil => simp [monitor]
  | cons e es ih =>
    simp only [List.cons_append, monitor]
    cases step s e with
    | none => simp
    | some s' => simpa using ih s'

theorem Accepts.nil (step : σ → Event → Option σ) (P : σ → Prop) (A : Halt → σ → Prop) :
    Accepts step P (seqRuns []) P A := by
  intro s hs
  exact ⟨s, by simp [seqRuns, monitor], fun _ => hs, by simp [seqRuns]⟩

theorem Accepts.cons {step : σ → Event → Option σ} {P Q R : σ → Prop} {A : Halt → σ → Prop}
    {r : Run} {rs : List Run} (h1 : Accepts step P r Q A) (h2 : Accepts step Q (seqRuns rs) R A) :
    Accepts step P (seqRuns (r :: rs)) R A := by
  intro s hs
  obtain ⟨s1, hm1, hq1, ha1⟩ := h1 s hs
  cases hr : r.halt with
  | some h =>
    refine ⟨s1, by simp [seqRuns, hr, hm1], by simp [seqRuns, hr], ?_⟩
    intro h' hh'
    simp [seqRuns, hr] at hh'
    exact hh' ▸ ha1 h hr
  | none =>
    obtain ⟨s2, hm2, hq2, ha2⟩ := h2 s1 (hq1 hr)
    refine ⟨s2, by simp [seqRuns, hr, monitor_append, hm1, hm2], ?_, ?_⟩
    · intro hn; apply hq2; simpa [seqRuns, hr] using hn
    · intro h hh; apply ha2; simpa [seqRuns, hr] using hh

theorem monitor_fixed {step : σ → Event → Option σ} {s : σ} :
    ∀ (l : List Event), (∀ e ∈ l, step s e = some s) → monitor step s l = some s := by
  intro l
  induction l with
  | nil => intro _; rfl
  | cons e es ih =>
    intro h
    simp [monitor, h e (by simp), ih (fun e he => h e (by simp [he]))]

theorem Accepts.cons_quiet {step : σ → Event → Option σ} {P R : σ → Prop} {A : Halt → σ → Prop}
    {r : Run} {rs : List Run} (hstep : ∀ s e, P s → quiet e = true → step s e = some s)
    (hA : ∀ h s, P s → A h s) (hr : Quiet r) (h2 : Accepts step P (seqRuns rs) R A) :
    Accepts step P (seqRuns (r :: rs)) R A := by
  have h1 : Accepts step P r P A := fun s hs =>
    ⟨s, monitor_fixed _ (fun e he => hstep s e hs (hr e he)), fun _ => hs, fun h _ => hA h s hs⟩
  exact Accepts.cons h1 h2

theorem Accepts.weaken {step : σ → Event → Option σ} {P Q Q' : σ → Prop}
    {A : Halt → σ → Prop} {r : Run} (h : Accepts step P r Q A) (hQ : ∀ s, Q s → Q' s) :
    Accepts step P r Q' A := by
  intro s hs
  obtain ⟨s', hm, hq, ha⟩ := h s hs
  exact ⟨s', hm, fun hn => hQ _ (hq hn), ha⟩

theorem monitor_split {step : σ → Event → Option σ} {s s' : σ} {pre post : List Event} {e : Event}
    (h : monitor step s (pre ++ e :: post) = some s') :
    ∃ s1 s2, monitor step s pre = some s1 ∧ step s1 e = some s2 ∧ monitor step s2 post = some s' := by
  rw [monitor_append] at h
  cases h1 : monitor step s pre with
  | none => simp [h1] at h
  | some s1 =>
    simp only [h1, Option.some_bind, monitor] at h
    cases h2 : step s1 e with
    | none => simp [h2] at h
    | some s2 => exact ⟨s1, s2, rfl, h2, by simpa [h2] using h⟩

end Monitor

/-! ### Quiet statements -/

theorem quiet_setupCall_buildConfig (m : String) (resp : Option String) :
    Quiet (setupCall .buildConfig m resp) := by
  cases resp <;> simp [Quiet, setupCall, quiet, observes]
theorem quiet_setupCall_newForConfig (m : String) (resp : Option String) : Quiet (setupCall .newForConfig m resp) := by
  cases resp <;> simp [Quiet, setupCall, quiet, observes]
theorem quiet_setupCall_listPods (m ns : String) (resp : Option String) : Quiet (setupCall (.listPods ns) m resp) := by
  cases resp <;> simp [Quiet, setupCall, quiet, observes]
theorem quiet_logNoPod (w : World) (d : Discovery) : Quiet (logNoPod w d) := by
  unfold logNoPod; split <;> simp [Quiet, quiet, observes]
theorem quiet_startSourcePod (c a : Option String) (pvc ns pod : String) (port : Int) (u p : String) :
    Quiet (startSourcePod c a pvc ns pod port u p) := by
  cases a <;> simp [Quiet, startSourcePod, quiet, observes, phaseArgv]
theorem quiet_startDestPod (c : Option String) (ip : ExecResult) (a : Option String) (pvc ns pod src : String) (bw port : Int) (u p : String) :
    Quiet (startDestPod c ip a pvc ns pod src bw port u p) := by
  unfold startDestPod
  cases ip.err <;> cases a <;> simp [Quiet, quiet, observes, phaseArgv]
theorem quiet_getPodLogs (res : ExecResult) (pod ns : String) : Quiet (getPodLogs res pod ns) := by
  simp [Quiet, getPodLogs, quiet, observes, phaseArgv]
theorem quiet_deletePod (resp : Option String) (pod ns : String) : Quiet (deletePod resp pod ns) := by
  simp [Quiet, deletePod, quiet, observes, phaseArgv]
theorem quiet_pollLoop_src (target done : String) (polls : Nat → ExecResult) (ns : String) :
    ∀ fuel i, Quiet (pollLoop target done polls "src-pod" ns fuel i) := by
  intro fuel
  induction fuel with
  | zero => intro i; simp [Quiet, pollLoop]
  | succ k ih =>
    intro i
    have := ih (i + 1)
    unfold pollLoop
    split
    · simp [Quiet, quiet, observes, phaseArgv]
    · simp only [Quiet] at this ⊢
      simpa [quiet, observes, phaseArgv] using this
theorem quiet_waitForPodRunning (polls : Nat → ExecResult) (ns : String) (fuel : Nat) :
    Quiet (waitForPodRunning polls "src-pod" ns fuel) := quiet_pollLoop_src _ _ _ _ _ _

/-! ### The order of claim operations -/

theorem tmp_ne_old (old : String) : old ++ "-tmp" ≠ old := by
  intro h
  have := congrArg String.length h
  simp [String.length_append] at this
  revert this
  decide

theorem mark_of_quiet (e : Event) (h : quiet e = true) : mark e = none := by
  cases e <;> simp_all [quiet, mark]

theorem markStep_quiet (old tmp : String) (s : List Mark) (e : Event) (h : quiet e = true) :
    markStep old tmp s e = some s := by
  simp [markStep, mark_of_quiet e h]

theorem monitor_markStep (old tmp : String) :
    ∀ (l : List Event) (s s' : List Mark), monitor (markStep old tmp) s l = some s' →
      s' = s ++ l.filterMap mark := by
  intro l
  induction l with
  | nil => intro s s' h; simpa [monitor] using h.symm
  | cons e es ih =>
    intro s s' h
    simp only [monitor] at h
    cases hm : mark e with
    | none =>
      simp only [markStep, hm] at h
      simpa [List.filterMap_cons, hm] using ih s s' h
    | some m =>
      simp only [markStep, hm] at h
      by_cases hok : okNext old tmp s m = true
      · simp only [hok, if_true] at h
        simpa [List.filterMap_cons, hm] using ih _ s' h
      · simp [hok, monitor] at h

theorem accepts_mark_fixed {old tmp : String} {P : List Mark → Prop} {r : Run}
    (h : ∀ e ∈ r.trace, mark e = none) :
    Accepts (markStep old tmp) P r P (fun _ _ => True) := by
  intro s hs
  refine ⟨s, monitor_fixed _ (fun e he => ?_), fun _ => hs, fun _ _ => trivial⟩
  simp [markStep, h e he]

theorem accepts_mark_scale (old tmp : String) (P : List Mark → Prop) (resp : Option String)
    (kind name ns : String) (replicas : Int) :
    Accepts (markStep old tmp) P (scaleWorkload resp kind name ns replicas) P
      (fun _ _ => True) := by
  apply accepts_mark_fixed
  unfold scaleWorkload
  split
  · cases resp <;> simp [mark, observes]
  · split
    · cases resp <;> simp [mark, observes]
    · split
      · cases resp <;> simp [mark, observes]
      · simp [mark, observes]

theorem accepts_mark_create (old tmp : String) (S : List Mark) (resp : Option String)
    (name : String) (size : Int) (sc ns : String)
    (h : ∀ ok, okNext old tmp S (.created name ok) = true) :
    Accepts (markStep old tmp) (fun s => s = S) (createPVC resp name size sc ns)
      (fun s => s = S ++ [.created name true]) (fun _ _ => True) := by
  intro s hs
  subst hs
  cases resp with
  | none => simp [createPVC, monitor, markStep, mark, observes, h]
  | some err => simp [createPVC, monitor, markStep, mark, observes, h]

theorem accepts_mark_delete (old tmp : String) (S : List Mark) (resp : Option String)
    (name ns : String) (h : ∀ ok, okNext old tmp S (.deleted name ok) = true) :
    Accepts (markStep old tmp) (fun s => s = S) (deletePVC resp name ns)
      (fun s => s = S ++ [.deleted name true]) (fun _ _ => True) := by
  intro s hs
  subst hs
  cases resp with
  | none => simp [deletePVC, monitor, markStep, mark, observes, h]
  | some err => simp [deletePVC, monitor, markStep, mark, observes, h]

theorem accepts_mark_pollLoop (old tmp : String) (S : List Mark) (done : String)
    (polls : Nat → ExecResult) (ns : String) (h : okNext old tmp S .succeeded = true) :
    ∀ fuel i, Accepts (markStep old tmp) (fun s => s = S)
      (pollLoop "Succeeded" done polls "dst-pod" ns fuel i)
      (fun s => s = S ++ [.succeeded]) (fun _ _ => True) := by
  intro fuel
  induction fuel with
  | zero =>
    intro i s hs
    exact ⟨s, by simp [pollLoop, monitor], by simp [pollLoop], fun _ _ => trivial⟩
  | succ k ih =>
    intro i s hs
    subst hs
    by_cases hi : TrimSpace (polls i).out = "Succeeded"
    · simp [pollLoop, hi, monitor, markStep, mark, observes, phaseArgv, h]
    · obtain ⟨s', hm, hq, _⟩ := ih (i + 1) s rfl
      refine ⟨s', ?_, ?_, fun _ _ => trivial⟩
      · simpa [pollLoop, hi, monitor, markStep, mark, observes, phaseArgv] using hm
      · intro hn
        apply hq
        simpa [pollLoop, hi] using hn

theorem accepts_mark_wait (old tmp : String) (S : List Mark)
    (polls : Nat → ExecResult) (ns : String) (fuel : Nat)
    (h : okNext old tmp S .succeeded = true) :
    Accepts (markStep old tmp) (fun s => s = S) (waitForPodSuccess polls "dst-pod" ns fuel)
      (fun s => s = S ++ [.succeeded]) (fun _ _ => True) :=
  accepts_mark_pollLoop old tmp S _ polls ns h fuel 0

theorem quiet_literal_log_sleep (line : String) (n : Nat) :
    Quiet ⟨[.log line, .sleep n], none⟩ := by
  simp [Quiet, quiet, observes]

theorem quiet_literal_sleep (n : Nat) : Quiet ⟨[.sleep n], none⟩ := by
  simp [Quiet, quiet, observes]

theorem quiet_literal_log (line : String) : Quiet ⟨[.log line], none⟩ := by
  simp [Quiet, quiet, observes]

theorem quiet_usage (line : String) (h : Option Halt) : Quiet ⟨[.println line], h⟩ := by
  simp [Quiet, quiet, observes]

theorem main_marks (w : World) (f : Flags) (fuel : Nat) :
    Accepts (markStep f.oldPVC (f.oldPVC ++ "-tmp")) (fun s => s = []) (main w f fuel)
      (fun _ => True) (fun _ _ => True) := by
  have hq : ∀ (P : List Mark → Prop) (s : List Mark) (e : Event), P s → quiet e = true →
      markStep f.oldPVC (f.oldPVC ++ "-tmp") s e = some s :=
    fun _ s e _ he => markStep_quiet _ _ s e he
  have hA : ∀ (P : List Mark → Prop) (h : Halt) (s : List Mark), P s →
      (fun (_ : Halt) (_ : List Mark) => True) h s := fun _ _ _ _ => trivial
  unfold main
  split
  · intro s hs
    exact ⟨s, by simp [monitor, markStep, mark, observes], by simp, fun _ _ => trivial⟩
  · dsimp only
    refine @Accepts.weaken _ _ _
      (fun s => s = [] ++ [.created (f.oldPVC ++ "-tmp") true] ++ [.succeeded] ++
        [.deleted f.oldPVC true] ++ [.created f.oldPVC true] ++ [.succeeded] ++
        [.deleted (f.oldPVC ++ "-tmp") true]) _ _ _ ?_ (fun _ _ => trivial)
    · refine Accepts.cons_quiet (hq _) (hA _) (quiet_setupCall_buildConfig _ _) ?_
      refine Accepts.cons_quiet (hq _) (hA _) (quiet_setupCall_newForConfig _ _) ?_
      refine Accepts.cons_quiet (hq _) (hA _) (quiet_setupCall_listPods _ _ _) ?_
      refine Accepts.cons_quiet (hq _) (hA _) (quiet_logNoPod _ _) ?_
      refine Accepts.cons (accepts_mark_scale _ _ _ _ _ _ _ _) ?_
      refine Accepts.cons (accepts_mark_create _ _ _ _ _ _ _ _ (by simp [okNext])) ?_
      refine Accepts.cons_quiet (hq _) (hA _) (quiet_startSourcePod _ _ _ _ _ _ _ _) ?_
      refine Accepts.cons_quiet (hq _) (hA _) (quiet_waitForPodRunning _ _ _) ?_
      refine Accepts.cons_quiet (hq _) (hA _) (quiet_startDestPod _ _ _ _ _ _ _ _ _ _ _) ?_
      refine Accepts.cons (accepts_mark_wait _ _ _ _ _ _ (by simp [okNext])) ?_
      refine Accepts.cons_quiet (hq _) (hA _) (quiet_literal_log_sleep _ _) ?_
      refine Accepts.cons_quiet (hq _) (hA _) (quiet_getPodLogs _ _ _) ?_
      refine Accepts.cons_quiet (hq _) (hA _) (quiet_deletePod _ _ _) ?_
      refine Accepts.cons_quiet (hq _) (hA _) (quiet_getPodLogs _ _ _) ?_
      refine Accepts.cons_quiet (hq _) (hA _) (quiet_deletePod _ _ _) ?_
      refine Accepts.cons (accepts_mark_delete _ _ _ _ _ _ (by simp [okNext, forwardMarks])) ?_
      refine Accepts.cons (accepts_mark_create _ _ _ _ _ _ _ _
        (by simp [okNext, forwardMarks])) ?_
      refine Accepts.cons_quiet (hq _) (hA _) (quiet_literal_sleep _) ?_
      refine Accepts.cons_quiet (hq _) (hA _) (quiet_startSourcePod _ _ _ _ _ _ _ _) ?_
      refine Accepts.cons_quiet (hq _) (hA _) (quiet_waitForPodRunning _ _ _) ?_
      refine Accepts.cons_quiet (hq _) (hA _) (quiet_startDestPod _ _ _ _ _ _ _ _ _ _ _) ?_
      refine Accepts.cons (accepts_mark_wait _ _ _ _ _ _ (by simp [okNext, forwardMarks])) ?_
      refine Accepts.cons_quiet (hq _) (hA _) (quiet_literal_log_sleep _ _) ?_
      refine Accepts.cons_quiet (hq _) (hA _) (quiet_getPodLogs _ _ _) ?_
      refine Accepts.cons_quiet (hq _) (hA _) (quiet_deletePod _ _ _) ?_
      refine Accepts.cons_quiet (hq _) (hA _) (quiet_getPodLogs _ _ _) ?_
      refine Accepts.cons_quiet (hq _) (hA _) (quiet_deletePod _ _ _) ?_
      refine Accepts.cons (accepts_mark_delete _ _ _ _ _ _
        (by simp [okNext, forwardMarks, backMarks])) ?_
      refine Accepts.cons (accepts_mark_scale _ _ _ _ _ _ _ _) ?_
      refine Accepts.cons_quiet (hq _) (hA _) (quiet_literal_log _) ?_
      exact Accepts.nil _ _ _

/-- C3: in every execution trace of `main` (complete, halted, or still
polling), whatever the collaborators answer: at the moment the canonical
claim is deleted, the claim events so far are exactly the creation of the
temporary claim followed by one observation of the destination unit as
`Succeeded` (the one that ends the forward round's wait); at the moment the
temporary claim is deleted, they are exactly those two, the deletion and
re-creation of the canonical claim, and a second observation of the
destination unit as `Succeeded` (the one that ends the back round's wait). -/
theorem C3_no_premature_deletion (w : World) (f : Flags) (fuel : Nat) (pre post : List Event)
    (ns : String) (err : Option String) :
    ((main w f fuel).trace = pre ++ .deletePVC ns f.oldPVC err :: post →
      pre.filterMap mark = forwardMarks (f.oldPVC ++ "-tmp")) ∧
    ((main w f fuel).trace = pre ++ .deletePVC ns (f.oldPVC ++ "-tmp") err :: post →
      pre.filterMap mark = backMarks f.oldPVC (f.oldPVC ++ "-tmp")) := by
  obtain ⟨s', hm, _⟩ := main_marks w f fuel [] rfl
  have hne := tmp_ne_old f.oldPVC
  constructor
  · intro h
    rw [h] at hm
    obtain ⟨s1, s2, h1, h2, _⟩ := monitor_split hm
    have hs1 := monitor_markStep _ _ _ _ _ h1
    simp only [List.nil_append] at hs1
    subst hs1
    by_cases hok : okNext f.oldPVC (f.oldPVC ++ "-tmp") (List.filterMap mark pre)
        (.deleted f.oldPVC err.isNone) = true
    · simpa [okNext, Ne.symm hne] using hok
    · simp [markStep, mark, hok] at h2
  · intro h
    rw [h] at hm
    obtain ⟨s1, s2, h1, h2, _⟩ := monitor_split hm
    have hs1 := monitor_markStep _ _ _ _ _ h1
    simp only [List.nil_append] at hs1
    subst hs1
    by_cases hok : okNext f.oldPVC (f.oldPVC ++ "-tmp") (List.filterMap mark pre)
        (.deleted (f.oldPVC ++ "-tmp") err.isNone) = true
    · simpa [okNext, hne] using hok
    · simp [markStep, mark, hok] at h2

set_option maxRecDepth 100000 in
/-- Witness for C3: in the scenario run the canonical claim `data0` is deleted
by event 32 and the temporary claim `data0-tmp` by event 62. -/
theorem C3_no_premature_deletion_witness :
    ((main scenarioWorld scenarioFlags 5).trace.take 32).filterMap mark =
      forwardMarks "data0-tmp" ∧
    ((main scenarioWorld scenarioFlags 5).trace.take 62).filterMap mark =
      backMarks "data0" "data0-tmp" :=
  ⟨(C3_no_premature_deletion scenarioWorld scenarioFlags 5
      ((main scenarioWorld scenarioFlags 5).trace.take 32)
      ((main scenarioWorld scenarioFlags 5).trace.drop 33) "default" none).1 (by decide),
   (C3_no_premature_deletion scenarioWorld scenarioFlags 5
      ((main scenarioWorld scenarioFlags 5).trace.take 62)
      ((main scenarioWorld scenarioFlags 5).trace.drop 63) "default" none).2 (by decide)⟩

/-! ### Canonical-name uniqueness -/

theorem claimFree_of_quiet (e : Event) (h : quiet e = true) : claimFree e = true := by
  cases e <;> simp_all [quiet, claimFree]

theorem applyClaim_claimFree (e : Event) (claims : List String) (h : claimFree e = true) :
    applyClaim e claims = claims := by
  cases e <;> simp_all [claimFree, applyClaim]

theorem claimStep_claimFree (old : String) (claims : List String) (e : Event)
    (hc : claims.count old ≤ 1) (h : claimFree e = true) :
    claimStep old claims e = some claims := by
  simp [claimStep, applyClaim_claimFree e claims h, hc]

theorem claimFree_scaleWorkload (resp : Option String) (kind name ns : String) (replicas : Int) :
    ∀ e ∈ (scaleWorkload resp kind name ns replicas).trace, claimFree e = true := by
  unfold scaleWorkload
  split
  · cases resp <;> simp [claimFree]
  · split
    · cases resp <;> simp [claimFree]
    · split
      · cases resp <;> simp [claimFree]
      · simp [claimFree]

theorem claimFree_pollLoop (target done : String) (polls : Nat → ExecResult)
    (podName ns : String) :
    ∀ fuel i, ∀ e ∈ (pollLoop target done polls podName ns fuel i).trace,
      claimFree e = true := by
  intro fuel
  induction fuel with
  | zero => intro i; simp [pollLoop]
  | succ k ih =>
    intro i
    have := ih (i + 1)
    unfold pollLoop
    split
    · simp [claimFree]
    · simpa [claimFree] using this

theorem accepts_claim_free {old : String} {P : List String → Prop} {r : Run}
    (hP : ∀ s, P s → s.count old ≤ 1) (h : ∀ e ∈ r.trace, claimFree e = true) :
    Accepts (claimStep old) P r P (fun _ _ => True) := by
  intro s hs
  exact ⟨s, monitor_fixed _ (fun e he => claimStep_claimFree old s e (hP s hs) (h e he)),
    fun _ => hs, fun _ _ => trivial⟩

theorem accepts_claim_create_other (old name : String) (hne : name ≠ old) (resp : Option String)
    (size : Int) (sc ns : String) :
    Accepts (claimStep old) (fun s => s.count old ≤ 1) (createPVC resp name size sc ns)
      (fun s => s.count old ≤ 1) (fun _ _ => True) := by
  intro s hs
  cases resp with
  | none =>
    refine ⟨name :: s, ?_, fun _ => ?_, fun _ _ => trivial⟩
    · simp [createPVC, monitor, claimStep, applyClaim, List.count_cons, hne, hs]
    · simpa [List.count_cons, hne] using hs
  | some err =>
    exact ⟨s, by simp [createPVC, monitor, claimStep, applyClaim, hs], by simp [createPVC],
      fun _ _ => trivial⟩

theorem accepts_claim_delete_old (old : String) (resp : Option String) (ns : String) :
    Accepts (claimStep old) (fun s => s.count old ≤ 1) (deletePVC resp old ns)
      (fun s => s.count old = 0) (fun _ _ => True) := by
  intro s hs
  cases resp with
  | none =>
    have h0 : (s.filter (fun c => c ≠ old)).count old = 0 := by
      simp [List.count_eq_zero, List.mem_filter]
    have h1 : (s.filter (fun c => c ≠ old)).count old ≤ 1 := by omega
    refine ⟨s.filter (fun c => c ≠ old), ?_, fun _ => h0, fun _ _ => trivial⟩
    simp only [deletePVC, monitor, claimStep, applyClaim, h1, if_true]
  | some err =>
    exact ⟨s, by simp [deletePVC, monitor, claimStep, applyClaim, hs], by simp [deletePVC],
      fun _ _ => trivial⟩

theorem accepts_claim_create_old (old : String) (resp : Option String)
    (size : Int) (sc ns : String) :
    Accepts (claimStep old) (fun s => s.count old = 0) (createPVC resp old size sc ns)
      (fun s => s.count old ≤ 1) (fun _ _ => True) := by
  intro s hs
  cases resp with
  | none =>
    refine ⟨old :: s, ?_, fun _ => ?_, fun _ _ => trivial⟩
    · simp [createPVC, monitor, claimStep, applyClaim, List.count_cons, hs]
    · simp [List.count_cons, hs]
  | some err =>
    exact ⟨s, by simp [createPVC, monitor, claimStep, applyClaim, hs], by simp [createPVC],
      fun _ _ => trivial⟩

theorem count_filter_ne_le (old name : String) (s : List String) :
    (s.filter (fun c => c ≠ name)).count old ≤ s.count old := by
  induction s with
  | nil => simp
  | cons a as ih =>
    by_cases h : a = name
    · simp only [h, ne_eq, not_true_eq_false, decide_False, Bool.false_eq_true,
        not_false_eq_true, List.filter_cons_of_neg, List.count_cons]
      simp only [ne_eq] at ih
      omega
    · simp only [ne_eq, h, not_false_eq_true, decide_True, List.filter_cons_of_pos,
        List.count_cons]
      simp only [ne_eq] at ih
      omega

theorem accepts_claim_delete_any (old name : String) (resp : Option String) (ns : String) :
    Accepts (claimStep old) (fun s => s.count old ≤ 1) (deletePVC resp name ns)
      (fun s => s.count old ≤ 1) (fun _ _ => True) := by
  intro s hs
  have hle := count_filter_ne_le old name s
  cases resp with
  | none =>
    have h1 : (s.filter (fun c => c ≠ name)).count old ≤ 1 := by omega
    refine ⟨s.filter (fun c => c ≠ name), ?_, fun _ => h1, fun _ _ => trivial⟩
    simp only [deletePVC, monitor, claimStep, applyClaim, h1, if_true]
  | some err =>
    exact ⟨s, by simp [deletePVC, monitor, claimStep, applyClaim, hs], by simp [deletePVC],
      fun _ _ => trivial⟩

theorem main_claims (w : World) (f : Flags) (fuel : Nat) :
    Accepts (claimStep f.oldPVC) (fun s => s.count f.oldPVC ≤ 1) (main w f fuel)
      (fun _ => True) (fun _ _ => True) := by
  have hq : ∀ (s : List String) (e : Event), s.count f.oldPVC ≤ 1 → quiet e = true →
      claimStep f.oldPVC s e = some s :=
    fun s e hs he => claimStep_claimFree _ s e hs (claimFree_of_quiet e he)
  have hA : ∀ (h : Halt) (s : List String), s.count f.oldPVC ≤ 1 →
      (fun (_ : Halt) (_ : List String) => True) h s := fun _ _ _ => trivial
  have hP : ∀ s : List String, s.count f.oldPVC ≤ 1 → s.count f.oldPVC ≤ 1 := fun _ h => h
  unfold main
  split
  · intro s hs
    exact ⟨s, by simp [monitor, claimStep, applyClaim, hs], by simp, fun _ _ => trivial⟩
  · dsimp only
    refine @Accepts.weaken _ _ _ (fun s => s.count f.oldPVC ≤ 1) _ _ _ ?_
      (fun _ _ => trivial)
    refine Accepts.cons_quiet hq hA (quiet_setupCall_buildConfig _ _) ?_
    refine Accepts.cons_quiet hq hA (quiet_setupCall_newForConfig _ _) ?_
    refine Accepts.cons_quiet hq hA (quiet_setupCall_listPods _ _ _) ?_
    refine Accepts.cons_quiet hq hA (quiet_logNoPod _ _) ?_
    refine Accepts.cons (accepts_claim_free hP (claimFree_scaleWorkload _ _ _ _ _)) ?_
    refine Accepts.cons (accepts_claim_create_other _ _ (tmp_ne_old _) _ _ _ _) ?_
    refine Accepts.cons_quiet hq hA (quiet_startSourcePod _ _ _ _ _ _ _ _) ?_
    refine Accepts.cons_quiet hq hA (quiet_waitForPodRunning _ _ _) ?_
    refine Accepts.cons_quiet hq hA (quiet_startDestPod _ _ _ _ _ _ _ _ _ _ _) ?_
    refine Accepts.cons (accepts_claim_free hP (claimFree_pollLoop _ _ _ _ _ _ _)) ?_
    refine Accepts.cons_quiet hq hA (quiet_literal_log_sleep _ _) ?_
    refine Accepts.cons_quiet hq hA (quiet_getPodLogs _ _ _) ?_
    refine Accepts.cons_quiet hq hA (quiet_deletePod _ _ _) ?_
    refine Accepts.cons_quiet hq hA (quiet_getPodLogs _ _ _) ?_
    refine Accepts.cons_quiet hq hA (quiet_deletePod _ _ _) ?_
    refine Accepts.cons (accepts_claim_delete_old _ _ _) ?_
    refine Accepts.cons (accepts_claim_create_old _ _ _ _ _) ?_
    refine Accepts.cons_quiet hq hA (quiet_literal_sleep _) ?_
    refine Accepts.cons_quiet hq hA (quiet_startSourcePod _ _ _ _ _ _ _ _) ?_
    refine Accepts.cons_quiet hq hA (quiet_waitForPodRunning _ _ _) ?_
    refine Accepts.cons_quiet hq hA (quiet_startDestPod _ _ _ _ _ _ _ _ _ _ _) ?_
    refine Accepts.cons (accepts_claim_free hP (claimFree_pollLoop _ _ _ _ _ _ _)) ?_
    refine Accepts.cons_quiet hq hA (quiet_literal_log_sleep _ _) ?_
    refine Accepts.cons_quiet hq hA (quiet_getPodLogs _ _ _) ?_
    refine Accepts.cons_quiet hq hA (quiet_deletePod _ _ _) ?_
    refine Accepts.cons_quiet hq hA (quiet_getPodLogs _ _ _) ?_
    refine Accepts.cons_quiet hq hA (quiet_deletePod _ _ _) ?_
    refine Accepts.cons (accepts_claim_delete_any _ _ _ _) ?_
    refine Accepts.cons (accepts_claim_free hP (claimFree_scaleWorkload _ _ _ _ _)) ?_
    refine Accepts.cons_quiet hq hA (quiet_literal_log _) ?_
    exact Accepts.nil _ _ _

theorem monitor_claimStep_prefix (old : String) :
    ∀ (l : List Event) (s s' : List String), s.count old ≤ 1 →
      monitor (claimStep old) s l = some s' →
      ∀ pre post, l = pre ++ post → (claimsAfter pre s).count old ≤ 1 := by
  intro l
  induction l with
  | nil =>
    intro s s' hs _ pre post h
    have hpre : pre = [] := by
      cases pre with
      | nil => rfl
      | cons a as => simp at h
    simpa [hpre, claimsAfter] using hs
  | cons e es ih =>
    intro s s' hs hm pre post h
    cases pre with
    | nil => simpa [claimsAfter] using hs
    | cons a as =>
      simp only [List.cons_append, List.cons.injEq] at h
      obtain ⟨rfl, hrest⟩ := h
      simp only [monitor] at hm
      by_cases hc : (applyClaim e s).count old ≤ 1
      · simp only [claimStep, hc, if_true] at hm
        have := ih (applyClaim e s) s' hc hm as post hrest
        simpa [claimsAfter] using this
      · simp [claimStep, hc] at hm

theorem mark_deleted_mem (l : List Event) (name : String)
    (h : Mark.deleted name true ∈ l.filterMap mark) :
    ∃ ns, Event.deletePVC ns name none ∈ l := by
  rw [List.mem_filterMap] at h
  obtain ⟨e, he, hm⟩ := h
  cases e with
  | deletePVC ns n err =>
    cases err with
    | none =>
      simp [mark] at hm
      exact ⟨ns, hm ▸ he⟩
    | some x => simp [mark] at hm
  | createPVC ns n a b c err => simp [mark] at hm
  | exec a b c d => simp [mark] at hm
  | buildConfig a => simp [mark, observes] at hm
  | newForConfig a => simp [mark, observes] at hm
  | listPods a b => simp [mark, observes] at hm
  | patchDeployment a b c d e => simp [mark, observes] at hm
  | patchStatefulSet a b c d e => simp [mark, observes] at hm
  | deleteDaemonSet a b c => simp [mark, observes] at hm
  | sleep a => simp [mark, observes] at hm
  | log a => simp [mark, observes] at hm
  | println a => simp [mark, observes] at hm

/-- C4: with the claims of the namespace as explicit state that starts with
exactly one claim bearing the canonical name, after every prefix of every
trace of `main` at most one claim bears the canonical name; the name
`<old>-tmp` differs from the canonical name; and every creation of a
canonical-named claim comes after a successful deletion of the canonical
claim. -/
theorem C4_canonical_name_unique (w : World) (f : Flags) (fuel : Nat) (claims : List String)
    (h0 : claims.count f.oldPVC = 1) :
    (∀ pre post, (main w f fuel).trace = pre ++ post →
      (claimsAfter pre claims).count f.oldPVC ≤ 1) ∧
    f.oldPVC ++ "-tmp" ≠ f.oldPVC ∧
    (∀ pre post ns storage modes sc err,
      (main w f fuel).trace = pre ++ .createPVC ns f.oldPVC storage modes sc err :: post →
      ∃ ns', Event.deletePVC ns' f.oldPVC none ∈ pre) := by
  have hne := tmp_ne_old f.oldPVC
  refine ⟨?_, hne, ?_⟩
  · obtain ⟨s', hm, _⟩ := main_claims w f fuel claims (by omega)
    exact monitor_claimStep_prefix _ _ _ _ (by omega) hm
  · intro pre post ns storage modes sc err h
    obtain ⟨s', hm, _⟩ := main_marks w f fuel [] rfl
    rw [h] at hm
    obtain ⟨s1, s2, h1, h2, _⟩ := monitor_split hm
    have hs1 := monitor_markStep _ _ _ _ _ h1
    simp only [List.nil_append] at hs1
    subst hs1
    by_cases hok : okNext f.oldPVC (f.oldPVC ++ "-tmp") (List.filterMap mark pre)
        (.created f.oldPVC err.isNone) = true
    · have hpre : List.filterMap mark pre =
          forwardMarks (f.oldPVC ++ "-tmp") ++ [.deleted f.oldPVC true] := by
        simpa [okNext, Ne.symm hne] using hok
      apply mark_deleted_mem
      rw [hpre]
      simp
    · simp [markStep, mark, hok] at h2

set_option maxRecDepth 100000 in
/-- Witness for C4: the scenario run, started with the claims `data0` and
`logs`; after its first 36 events (the canonical claim has been deleted and
created again) one claim bears the name `data0`. -/
theorem C4_canonical_name_unique_witness :
    (claimsAfter ((main scenarioWorld scenarioFlags 5).trace.take 36) ["data0", "logs"]).count
      "data0" ≤ 1 ∧
    "data0" ++ "-tmp" ≠ "data0" ∧
    ∃ ns', Event.deletePVC ns' "data0" none ∈ (main scenarioWorld scenarioFlags 5).trace.take 34 :=
  ⟨(C4_canonical_name_unique scenarioWorld scenarioFlags 5 ["data0", "logs"] (by decide)).1
      ((main scenarioWorld scenarioFlags 5).trace.take 36)
      ((main scenarioWorld scenarioFlags 5).trace.drop 36) (by decide),
   (C4_canonical_name_unique scenarioWorld scenarioFlags 5 ["data0", "logs"] (by decide)).2.1,
   (C4_canonical_name_unique scenarioWorld scenarioFlags 5 ["data0", "logs"] (by decide)).2.2
      ((main scenarioWorld scenarioFlags 5).trace.take 34)
      ((main scenarioWorld scenarioFlags 5).trace.drop 35) "default" 21474836480
      ["ReadWriteOnce"] "fast" none (by decide)⟩

/-! ### Quiesce and resume -/

theorem monitor_patchStep : ∀ (l : List Event) (s : List Int),
    monitor patchStep s l = some (s ++ l.filterMap patchReplicas) := by
  intro l
  induction l with
  | nil => intro s; simp [monitor]
  | cons e es ih =>
    intro s
    simp only [monitor, patchStep, ih]
    cases h : patchReplicas e <;> simp [List.filterMap_cons, h]

theorem patchStep_quiet (s : List Int) (e : Event) (h : quiet e = true) :
    patchStep s e = some s := by
  cases e <;> simp_all [quiet, patchStep, patchReplicas]

theorem accepts_patch_fixed {P : List Int → Prop} {r : Run}
    (h : ∀ e ∈ r.trace, patchReplicas e = none) :
    Accepts patchStep P r P (fun _ _ => True) := by
  intro s hs
  refine ⟨s, monitor_fixed _ (fun e he => ?_), fun _ => hs, fun _ _ => trivial⟩
  simp [patchStep, h e he]

theorem patchFree_createPVC (resp : Option String) (name : String) (size : Int)
    (sc ns : String) : ∀ e ∈ (createPVC resp name size sc ns).trace, patchReplicas e = none := by
  cases resp <;> simp [createPVC, patchReplicas]

theorem patchFree_deletePVC (resp : Option String) (name ns : String) :
    ∀ e ∈ (deletePVC resp name ns).trace, patchReplicas e = none := by
  cases resp <;> simp [deletePVC, patchReplicas]

theorem patchFree_pollLoop (target done : String) (polls : Nat → ExecResult)
    (podName ns : String) :
    ∀ fuel i, ∀ e ∈ (pollLoop target done polls podName ns fuel i).trace,
      patchReplicas e = none := by
  intro fuel
  induction fuel with
  | zero => intro i; simp [pollLoop]
  | succ k ih =>
    intro i
    have := ih (i + 1)
    unfold pollLoop
    split
    · simp [patchReplicas]
    · simpa [patchReplicas] using this

theorem accepts_patch_scale (S : List Int) (resp : Option String) (kind name ns : String)
    (replicas : Int) (hk : kind = "Deployment" ∨ kind = "StatefulSet") :
    Accepts patchStep (fun s => s = S) (scaleWorkload resp kind name ns replicas)
      (fun s => s = S ++ [replicas]) (fun _ _ => True) := by
  intro s hs
  subst hs
  rcases hk with rfl | rfl
  · cases resp <;> simp [scaleWorkload, monitor_patchStep, patchReplicas]
  · cases resp <;> simp [scaleWorkload, monitor_patchStep, patchReplicas]

theorem main_patches (w : World) (f : Flags) (fuel : Nat)
    (hk : (discover f.oldPVC w.pods).ownerKind = "Deployment" ∨
      (discover f.oldPVC w.pods).ownerKind = "StatefulSet") :
    Accepts patchStep (fun s => s = []) (main w f fuel) (fun s => s = [] ++ [0] ++ [1])
      (fun _ _ => True) := by
  have hq : ∀ (P : List Int → Prop) (s : List Int) (e : Event), P s → quiet e = true →
      patchStep s e = some s := fun _ s e _ he => patchStep_quiet s e he
  have hA : ∀ (P : List Int → Prop) (h : Halt) (s : List Int), P s →
      (fun (_ : Halt) (_ : List Int) => True) h s := fun _ _ _ _ => trivial
  unfold main
  split
  · intro s hs
    exact ⟨s, by simp [monitor, patchStep, patchReplicas], by simp, fun _ _ => trivial⟩
  · dsimp only
    refine Accepts.cons_quiet (hq _) (hA _) (quiet_setupCall_buildConfig _ _) ?_
    refine Accepts.cons_quiet (hq _) (hA _) (quiet_setupCall_newForConfig _ _) ?_
    refine Accepts.cons_quiet (hq _) (hA _) (quiet_setupCall_listPods _ _ _) ?_
    refine Accepts.cons_quiet (hq _) (hA _) (quiet_logNoPod _ _) ?_
    refine Accepts.cons (accepts_patch_scale _ _ _ _ _ _ hk) ?_
    refine Accepts.cons (accepts_patch_fixed (patchFree_createPVC _ _ _ _ _)) ?_
    refine Accepts.cons_quiet (hq _) (hA _) (quiet_startSourcePod _ _ _ _ _ _ _ _) ?_
    refine Accepts.cons_quiet (hq _) (hA _) (quiet_waitForPodRunning _ _ _) ?_
    refine Accepts.cons_quiet (hq _) (hA _) (quiet_startDestPod _ _ _ _ _ _ _ _ _ _ _) ?_
    refine Accepts.cons (accepts_patch_fixed (patchFree_pollLoop _ _ _ _ _ _ _)) ?_
    refine Accepts.cons_quiet (hq _) (hA _) (quiet_literal_log_sleep _ _) ?_
    refine Accepts.cons_quiet (hq _) (hA _) (quiet_getPodLogs _ _ _) ?_
    refine Accepts.cons_quiet (hq _) (hA _) (quiet_deletePod _ _ _) ?_
    refine Accepts.cons_quiet (hq _) (hA _) (quiet_getPodLogs _ _ _) ?_
    refine Accepts.cons_quiet (hq _) (hA _) (quiet_deletePod _ _ _) ?_
    refine Accepts.cons (accepts_patch_fixed (patchFree_deletePVC _ _ _)) ?_
    refine Accepts.cons (accepts_patch_fixed (patchFree_createPVC _ _ _ _ _)) ?_
    refine Accepts.cons_quiet (hq _) (hA _) (quiet_literal_sleep _) ?_
    refine Accepts.cons_quiet (hq _) (hA _) (quiet_startSourcePod _ _ _ _ _ _ _ _) ?_
    refine Accepts.cons_quiet (hq _) (hA _) (quiet_waitForPodRunning _ _ _) ?_
    refine Accepts.cons_quiet (hq _) (hA _) (quiet_startDestPod _ _ _ _ _ _ _ _ _ _ _) ?_
    refine Accepts.cons (accepts_patch_fixed (patchFree_pollLoop _ _ _ _ _ _ _)) ?_
    refine Accepts.cons_quiet (hq _) (hA _) (quiet_literal_log_sleep _ _) ?_
    refine Accepts.cons_quiet (hq _) (hA _) (quiet_getPodLogs _ _ _) ?_
    refine Accepts.cons_quiet (hq _) (hA _) (quiet_deletePod _ _ _) ?_
    refine Accepts.cons_quiet (hq _) (hA _) (quiet_getPodLogs _ _ _) ?_
    refine Accepts.cons_quiet (hq _) (hA _) (quiet_deletePod _ _ _) ?_
    refine Accepts.cons (accepts_patch_fixed (patchFree_deletePVC _ _ _)) ?_
    refine Accepts.cons (accepts_patch_scale _ _ _ _ _ _ hk) ?_
    refine Accepts.cons_quiet (hq _) (hA _) (quiet_literal_log _) ?_
    exact Accepts.nil _ _ _

/-- C2 (amended): for every migration request whose discovered workload is a
Deployment or a StatefulSet, on every run of `main` that completes, the
replica counts requested are 0 (quiesce) and then 1 (resume): the final
resume step requests one replica, whatever the replica count was before. -/
theorem C2_resume_requests_one (w : World) (f : Flags) (fuel : Nat)
    (hk : (discover f.oldPVC w.pods).ownerKind = "Deployment" ∨
      (discover f.oldPVC w.pods).ownerKind = "StatefulSet")
    (hdone : (main w f fuel).halt = none) :
    (main w f fuel).trace.filterMap patchReplicas = [0, 1] ∧
    resumeRequest (main w f fuel).trace = some 1 := by
  obtain ⟨s', hm, hq, _⟩ := main_patches w f fuel hk [] rfl
  have hs' := hq hdone
  rw [monitor_patchStep] at hm
  simp only [List.nil_append, Option.some.injEq] at hm
  have hl : (main w f fuel).trace.filterMap patchReplicas = [0, 1] := by
    rw [hm, hs']; rfl
  exact ⟨hl, by simp [resumeRequest, hl]⟩

set_option maxRecDepth 100000 in
/-- Witness for C2: the scenario run (Deployment `app0`) completes and its
resume step requests one replica. -/
theorem C2_resume_requests_one_witness :
    (main scenarioWorld scenarioFlags 5).trace.filterMap patchReplicas = [0, 1] ∧
    resumeRequest (main scenarioWorld scenarioFlags 5).trace = some 1 :=
  C2_resume_requests_one scenarioWorld scenarioFlags 5 (Or.inl (by decide)) (by decide)

set_option maxRecDepth 100000 in
/-- Counterexample for C2 as stated: in the scenario of the specification the
workload is Deployment `app0` with 3 replicas; the run completes and its
resume step requests 1 replica, not 3. -/
theorem C2_resume_not_original :
    (discover scenarioFlags.oldPVC scenarioWorld.pods).ownerKind = "Deployment" ∧
    (main scenarioWorld scenarioFlags 5).halt = none ∧
    resumeRequest (main scenarioWorld scenarioFlags 5).trace = some 1 ∧
    resumeRequest (main scenarioWorld scenarioFlags 5).trace ≠ some scenarioReplicas := by
  decide

/-- On a DaemonSet, whatever the replica count passed, the first
thing `scaleWorkload` does is to request the deletion of the DaemonSet, and an
error of that request is fatal. -/
theorem scaleWorkload_daemonset_deletes (resp : Option String) (name ns : String) (replicas : Int) :
    (scaleWorkload resp "DaemonSet" name ns replicas).trace.head? =
      some (.deleteDaemonSet ns name resp) ∧
    ((scaleWorkload resp "DaemonSet" name ns replicas).halt = none ↔ resp = none) := by
  cases resp <;> simp [scaleWorkload]

set_option maxRecDepth 100000 in
/-- C7, the code at the failing input: the resume step of a run whose workload
is a DaemonSet requests its deletion again; the cluster answers that the
object is not found, and `main` exits with status 1 instead of completing. -/
theorem C7_daemonset_resume_fails :
    scaleWorkload daemonWorld.resume "DaemonSet" "node-agent" "default" 1 =
      ⟨[.deleteDaemonSet "default" "node-agent"
          (some "daemonsets.apps \"node-agent\" not found"),
        .log "Failed to delete DaemonSet node-agent: daemonsets.apps \"node-agent\" not found"],
       some (.exit 1)⟩ ∧
    (main daemonWorld scenarioFlags 5).halt = some (.exit 1) ∧
    Event.deleteDaemonSet "default" "node-agent" none ∈
      (main daemonWorld scenarioFlags 5).trace ∧
    (main daemonWorld scenarioFlags 5).trace.getLast? =
      some (.log
        "Failed to delete DaemonSet node-agent: daemonsets.apps \"node-agent\" not found") := by
  decide

/-! ### Failures of deletions -/

theorem deleteStep_claimFree (e : Event) (h : claimFree e = true) :
    deleteStep .alive e = some .alive := by
  cases e <;> simp_all [claimFree, deleteStep]

theorem accepts_delete_fixed {r : Run} {A : Halt → DelState → Prop}
    (hA : ∀ h, A h .alive) (h : ∀ e ∈ r.trace, deleteStep .alive e = some .alive) :
    Accepts deleteStep (fun s => s = .alive) r (fun s => s = .alive) A := by
  intro s hs
  subst hs
  exact ⟨.alive, monitor_fixed _ h, fun _ => rfl, fun h _ => hA h⟩

theorem accepts_delete_createPVC (resp : Option String) (name : String) (size : Int)
    (sc ns : String) :
    Accepts deleteStep (fun s => s = .alive) (createPVC resp name size sc ns)
      (fun s => s = .alive) (fun h s => s = .alive ∨ (s = .dead ∧ h = .exit 1)) := by
  apply accepts_delete_fixed (fun _ => Or.inl rfl)
  cases resp <;> simp [createPVC, deleteStep]

theorem accepts_delete_deletePVC (resp : Option String) (name ns : String) :
    Accepts deleteStep (fun s => s = .alive) (deletePVC resp name ns)
      (fun s => s = .alive) (fun h s => s = .alive ∨ (s = .dead ∧ h = .exit 1)) := by
  intro s hs
  subst hs
  cases resp with
  | none => exact ⟨.alive, by simp [deletePVC, monitor, deleteStep], fun _ => rfl,
      fun _ _ => Or.inl rfl⟩
  | some err =>
    refine ⟨.dead, by simp [deletePVC, monitor, deleteStep], by simp [deletePVC], ?_⟩
    intro h hh
    simp [deletePVC] at hh
    exact Or.inr ⟨rfl, hh.symm⟩

theorem main_deletes (w : World) (f : Flags) (fuel : Nat) :
    Accepts deleteStep (fun s => s = .alive) (main w f fuel) (fun s => s = .alive)
      (fun h s => s = .alive ∨ (s = .dead ∧ h = .exit 1)) := by
  have hq : ∀ (s : DelState) (e : Event), s = .alive → quiet e = true →
      deleteStep s e = some s :=
    fun s e hs he => hs ▸ deleteStep_claimFree e (claimFree_of_quiet e he)
  have hA : ∀ (h : Halt) (s : DelState), s = .alive →
      (fun (h : Halt) (s : DelState) => s = .alive ∨ (s = .dead ∧ h = .exit 1)) h s :=
    fun _ _ hs => Or.inl hs
  have hA' : ∀ (h : Halt),
      (fun (h : Halt) (s : DelState) => s = .alive ∨ (s = .dead ∧ h = .exit 1)) h .alive :=
    fun _ => Or.inl rfl
  unfold main
  split
  · intro s hs
    subst hs
    exact ⟨.alive, by simp [monitor, deleteStep], by simp, fun _ _ => Or.inl rfl⟩
  · dsimp only
    refine Accepts.cons_quiet hq hA (quiet_setupCall_buildConfig _ _) ?_
    refine Accepts.cons_quiet hq hA (quiet_setupCall_newForConfig _ _) ?_
    refine Accepts.cons_quiet hq hA (quiet_setupCall_listPods _ _ _) ?_
    refine Accepts.cons_quiet hq hA (quiet_logNoPod _ _) ?_
    refine Accepts.cons (accepts_delete_fixed hA' (fun e he =>
      deleteStep_claimFree e (claimFree_scaleWorkload _ _ _ _ _ e he))) ?_
    refine Accepts.cons (accepts_delete_createPVC _ _ _ _ _) ?_
    refine Accepts.cons_quiet hq hA (quiet_startSourcePod _ _ _ _ _ _ _ _) ?_
    refine Accepts.cons_quiet hq hA (quiet_waitForPodRunning _ _ _) ?_
    refine Accepts.cons_quiet hq hA (quiet_startDestPod _ _ _ _ _ _ _ _ _ _ _) ?_
    refine Accepts.cons (accepts_delete_fixed hA' (fun e he =>
      deleteStep_claimFree e (claimFree_pollLoop _ _ _ _ _ _ _ e he))) ?_
    refine Accepts.cons_quiet hq hA (quiet_literal_log_sleep _ _) ?_
    refine Accepts.cons_quiet hq hA (quiet_getPodLogs _ _ _) ?_
    refine Accepts.cons_quiet hq hA (quiet_deletePod _ _ _) ?_
    refine Accepts.cons_quiet hq hA (quiet_getPodLogs _ _ _) ?_
    refine Accepts.cons_quiet hq hA (quiet_deletePod _ _ _) ?_
    refine Accepts.cons (accepts_delete_deletePVC _ _ _) ?_
    refine Accepts.cons (accepts_delete_createPVC _ _ _ _ _) ?_
    refine Accepts.cons_quiet hq hA (quiet_literal_sleep _) ?_
    refine Accepts.cons_quiet hq hA (quiet_startSourcePod _ _ _ _ _ _ _ _) ?_
    refine Accepts.cons_quiet hq hA (quiet_waitForPodRunning _ _ _) ?_
    refine Accepts.cons_quiet hq hA (quiet_startDestPod _ _ _ _ _ _ _ _ _ _ _) ?_
    refine Accepts.cons (accepts_delete_fixed hA' (fun e he =>
      deleteStep_claimFree e (claimFree_pollLoop _ _ _ _ _ _ _ e he))) ?_
    refine Accepts.cons_quiet hq hA (quiet_literal_log_sleep _ _) ?_
    refine Accepts.cons_quiet hq hA (quiet_getPodLogs _ _ _) ?_
    refine Accepts.cons_quiet hq hA (quiet_deletePod _ _ _) ?_
    refine Accepts.cons_quiet hq hA (quiet_getPodLogs _ _ _) ?_
    refine Accepts.cons_quiet hq hA (quiet_deletePod _ _ _) ?_
    refine Accepts.cons (accepts_delete_deletePVC _ _ _) ?_
    refine Accepts.cons (accepts_delete_fixed hA' (fun e he =>
      deleteStep_claimFree e (claimFree_scaleWorkload _ _ _ _ _ e he))) ?_
    refine Accepts.cons_quiet hq hA (quiet_literal_log _) ?_
    exact Accepts.nil _ _ _

theorem monitor_dead : ∀ (l : List Event) (s' : DelState),
    monitor deleteStep .dead l = some s' → l = [] ∧ s' = .dead := by
  intro l s' h
  cases l with
  | nil => simpa [monitor] using h.symm
  | cons e es => simp [monitor, deleteStep] at h

theorem monitor_failed (name err : String) : ∀ (l : List Event) (s' : DelState),
    monitor deleteStep (.failed name err) l = some s' →
      (l = [] ∧ s' = .failed name err) ∨
      (l = [.log ("Error deleting PVC " ++ name ++ ": " ++ err)] ∧ s' = .dead) := by
  intro l s' h
  cases l with
  | nil => left; simpa [monitor] using h.symm
  | cons e es =>
    right
    cases e with
    | log line =>
      by_cases hl : line = "Error deleting PVC " ++ name ++ ": " ++ err
      · subst hl
        simp only [monitor, deleteStep, if_true] at h
        obtain ⟨h1, h2⟩ := monitor_dead es s' h
        exact ⟨by rw [h1], h2⟩
      · simp [monitor, deleteStep, hl] at h
    | _ => simp [monitor, deleteStep] at h

theorem main_failed_delete (w : World) (f : Flags) (fuel : Nat) (pre post : List Event)
    (ns name err : String)
    (h : (main w f fuel).trace = pre ++ .deletePVC ns name (some err) :: post) :
    post = [.log ("Error deleting PVC " ++ name ++ ": " ++ err)] ∧
    (main w f fuel).halt = some (.exit 1) := by
  obtain ⟨s', hm, hq, ha⟩ := main_deletes w f fuel .alive rfl
  rw [h] at hm
  obtain ⟨s1, s2, h1, h2, h3⟩ := monitor_split hm
  cases s1 with
  | failed n e => simp [deleteStep] at h2
  | dead => simp [deleteStep] at h2
  | alive =>
    simp only [deleteStep, Option.some.injEq] at h2
    subst h2
    have hdead : s' ≠ DelState.alive → (main w f fuel).halt = some (.exit 1) := by
      intro hne
      cases hh : (main w f fuel).halt with
      | none => exact absurd (hq hh) hne
      | some x =>
        rcases ha x hh with h0 | ⟨_, h0⟩
        · exact absurd h0 hne
        · rw [h0]
    rcases monitor_failed name err post s' h3 with ⟨_, hs⟩ | ⟨hp, hs⟩
    · have hhalt := hdead (by rw [hs]; simp)
      obtain ⟨x, hx⟩ : ∃ x, (main w f fuel).halt = some x := ⟨_, hhalt⟩
      rcases ha x hx with h0 | ⟨h0, _⟩
      · rw [hs] at h0; simp at h0
      · rw [hs] at h0; simp at h0
    · exact ⟨hp, hdead (by rw [hs]; simp)⟩
/-! ### Runs that look alike -/

theorem SameView.rfl' {β : Type} (v : Event → Option β) (r : Run) : SameView v r r :=
  ⟨rfl, rfl⟩

theorem seqRuns_sameView {β : Type} (v : Event → Option β) :
    ∀ (l l' : List Run), List.Forall₂ (SameView v) l l' →
      SameView v (seqRuns l) (seqRuns l') := by
  intro l l' h
  induction h with
  | nil => exact ⟨rfl, rfl⟩
  | @cons r r' rs rs' hr _ ih =>
    obtain ⟨hh, ht⟩ := hr
    obtain ⟨ihh, iht⟩ := ih
    cases h1 : r.halt with
    | some x =>
      have h2 : r'.halt = some x := by rw [← hh, h1]
      simp [seqRuns, h1, h2, SameView, ht]
    | none =>
      have h2 : r'.halt = none := by rw [← hh, h1]
      simp [seqRuns, h1, h2, SameView, ht, ihh, iht, List.filterMap_append]

theorem sameView_deletePod (resp resp' : Option String) (podName ns : String) :
    SameView blankPodDelete (deletePod resp podName ns) (deletePod resp' podName ns) := by
  simp [SameView, deletePod, blankPodDelete]

theorem main_ignores_pod_deletes (w : World) (f : Flags) (fuel : Nat)
    (dst1 src1 dst2 src2 : Option String) :
    SameView blankPodDelete (main (withPodDeletes w dst1 src1 dst2 src2) f fuel)
      (main w f fuel) := by
  unfold main
  split
  · exact ⟨rfl, rfl⟩
  · dsimp only
    apply seqRuns_sameView
    refine List.Forall₂.cons (SameView.rfl' _ _) ?_
    refine List.Forall₂.cons (SameView.rfl' _ _) ?_
    refine List.Forall₂.cons (SameView.rfl' _ _) ?_
    refine List.Forall₂.cons (SameView.rfl' _ _) ?_
    refine List.Forall₂.cons (SameView.rfl' _ _) ?_
    refine List.Forall₂.cons (SameView.rfl' _ _) ?_
    refine List.Forall₂.cons (SameView.rfl' _ _) ?_
    refine List.Forall₂.cons (SameView.rfl' _ _) ?_
    refine List.Forall₂.cons (SameView.rfl' _ _) ?_
    refine List.Forall₂.cons (SameView.rfl' _ _) ?_
    refine List.Forall₂.cons (SameView.rfl' _ _) ?_
    refine List.Forall₂.cons (SameView.rfl' _ _) ?_
    refine List.Forall₂.cons (sameView_deletePod _ _ _ _) ?_
    refine List.Forall₂.cons (SameView.rfl' _ _) ?_
    refine List.Forall₂.cons (sameView_deletePod _ _ _ _) ?_
    refine List.Forall₂.cons (SameView.rfl' _ _) ?_
    refine List.Forall₂.cons (SameView.rfl' _ _) ?_
    refine List.Forall₂.cons (SameView.rfl' _ _) ?_
    refine List.Forall₂.cons (SameView.rfl' _ _) ?_
    refine List.Forall₂.cons (SameView.rfl' _ _) ?_
    refine List.Forall₂.cons (SameView.rfl' _ _) ?_
    refine List.Forall₂.cons (SameView.rfl' _ _) ?_
    refine List.Forall₂.cons (SameView.rfl' _ _) ?_
    refine List.Forall₂.cons (SameView.rfl' _ _) ?_
    refine List.Forall₂.cons (sameView_deletePod _ _ _ _) ?_
    refine List.Forall₂.cons (SameView.rfl' _ _) ?_
    refine List.Forall₂.cons (sameView_deletePod _ _ _ _) ?_
    refine List.Forall₂.cons (SameView.rfl' _ _) ?_
    refine List.Forall₂.cons (SameView.rfl' _ _) ?_
    refine List.Forall₂.cons (SameView.rfl' _ _) ?_
    exact List.Forall₂.nil

/-- C8 (amended): in every trace of `main`, a failed deletion of a claim (the
old claim after the forward round, the temporary claim after the back round)
is followed by the fatal log line and nothing else, and the process exits with
status 1; an error reported by the deletion of the destination unit or of the
source unit is not examined: with any other answers to those four deletions
`main` halts or completes alike and performs the same events. -/
theorem C8_claim_deletion_failure_halts (w : World) (f : Flags) (fuel : Nat) :
    (∀ pre post ns name err,
      (main w f fuel).trace = pre ++ .deletePVC ns name (some err) :: post →
      post = [.log ("Error deleting PVC " ++ name ++ ": " ++ err)] ∧
      (main w f fuel).halt = some (.exit 1)) ∧
    (∀ dst1 src1 dst2 src2,
      (main (withPodDeletes w dst1 src1 dst2 src2) f fuel).halt = (main w f fuel).halt ∧
      (main (withPodDeletes w dst1 src1 dst2 src2) f fuel).trace.filterMap blankPodDelete =
        (main w f fuel).trace.filterMap blankPodDelete) :=
  ⟨fun pre post ns name err h => main_failed_delete w f fuel pre post ns name err h,
   fun dst1 src1 dst2 src2 => main_ignores_pod_deletes w f fuel dst1 src1 dst2 src2⟩

set_option maxRecDepth 100000 in
/-- Witness for C8: in the scenario the deletion of the old claim `data0` is
refused; it is event 32, the fatal line is the only event after it, and the
process exits with status 1. -/
theorem C8_claim_deletion_failure_halts_witness :
    (main claimDeleteFails scenarioFlags 5).trace.drop 33 =
      [.log "Error deleting PVC data0: persistentvolumeclaims \"data0\" is forbidden"] ∧
    (main claimDeleteFails scenarioFlags 5).halt = some (.exit 1) :=
  (C8_claim_deletion_failure_halts claimDeleteFails scenarioFlags 5).1
    ((main claimDeleteFails scenarioFlags 5).trace.take 32)
    ((main claimDeleteFails scenarioFlags 5).trace.drop 33) "default" "data0"
    "persistentvolumeclaims \"data0\" is forbidden" (by decide)

set_option maxRecDepth 100000 in
/-- Counterexample for C8 as stated: the deletion of the destination unit after
the forward round reports an error (event 27 of the run), and `main` goes on:
it deletes the source unit and the old claim, runs the back round and
completes. -/
theorem C8_pod_deletion_failure_ignored :
    (main podDeleteFails scenarioFlags 5).trace.get? 27 =
      some (.exec ["kubectl", "delete", "pod", "dst-pod", "-n", "default"] "" ""
        (some "exit status 1")) ∧
    Event.deletePVC "default" "data0" none ∈ (main podDeleteFails scenarioFlags 5).trace.drop 28 ∧
    ((main podDeleteFails scenarioFlags 5).trace.drop 28).filter isStep =
      (coreSteps scenarioWorld scenarioFlags 5).drop 8 ++
        [.patchDeployment "default" "app0" 1 "\x7b\"spec\":\x7b\"replicas\":1\x7d\x7d" none] ∧
    (main podDeleteFails scenarioFlags 5).halt = none := by
  decide
/-! ### The session credential -/

theorem sourcePodYAML_injective (pvc ns podName : String) (sshPort : Int)
    (username pw pw' : String)
    (h : sourcePodYAML pvc ns podName sshPort username pw =
      sourcePodYAML pvc ns podName sshPort username pw') : pw = pw' := by
  have h' := congrArg String.data h
  simp only [sourcePodYAML, String.data_append, List.append_assoc,
    List.append_cancel_left_eq, List.append_cancel_right_eq] at h'
  exact String.ext h'

theorem destPodYAML_injective (pvc ns podName : String) (bwLimit sshPort : Int)
    (username srcPodIP pw pw' : String)
    (h : destPodYAML pvc ns podName bwLimit sshPort username pw srcPodIP =
      destPodYAML pvc ns podName bwLimit sshPort username pw' srcPodIP) : pw = pw' := by
  have h' := congrArg String.data h
  simp only [destPodYAML, String.data_append, List.append_assoc,
    List.append_cancel_left_eq, List.append_cancel_right_eq] at h'
  exact String.ext h'

theorem sameView_formatted_startSourcePod (clear apply : Option String)
    (pvc ns podName : String) (sshPort : Int) (username pw pw' : String) :
    SameView formatted (startSourcePod clear apply pvc ns podName sshPort username pw)
      (startSourcePod clear apply pvc ns podName sshPort username pw') := by
  cases apply <;> simp [SameView, startSourcePod, formatted]

theorem sameView_formatted_startDestPod (clear : Option String) (ip : ExecResult)
    (apply : Option String) (pvc ns podName srcPod : String) (bwLimit sshPort : Int)
    (username pw pw' : String) :
    SameView formatted
      (startDestPod clear ip apply pvc ns podName srcPod bwLimit sshPort username pw)
      (startDestPod clear ip apply pvc ns podName srcPod bwLimit sshPort username pw') := by
  unfold startDestPod
  cases ip.err <;> cases apply <;> simp [SameView, formatted]

theorem sameView_formatted_getPodLogs (res res' : ExecResult) (podName ns : String) :
    SameView formatted (getPodLogs res podName ns) (getPodLogs res' podName ns) := by
  simp [SameView, getPodLogs, formatted]

theorem main_formatted_independent (w : World) (f : Flags) (fuel : Nat) (rnd : Nat → Nat)
    (dst1 src1 dst2 src2 : ExecResult) :
    SameView formatted (main (withSecretAndUnitLogs w rnd dst1 src1 dst2 src2) f fuel)
      (main w f fuel) := by
  unfold main
  split
  · exact ⟨rfl, rfl⟩
  · dsimp only
    apply seqRuns_sameView
    refine List.Forall₂.cons (SameView.rfl' _ _) ?_
    refine List.Forall₂.cons (SameView.rfl' _ _) ?_
    refine List.Forall₂.cons (SameView.rfl' _ _) ?_
    refine List.Forall₂.cons (SameView.rfl' _ _) ?_
    refine List.Forall₂.cons (SameView.rfl' _ _) ?_
    refine List.Forall₂.cons (SameView.rfl' _ _) ?_
    refine List.Forall₂.cons (sameView_formatted_startSourcePod _ _ _ _ _ _ _ _ _) ?_
    refine List.Forall₂.cons (SameView.rfl' _ _) ?_
    refine List.Forall₂.cons (sameView_formatted_startDestPod _ _ _ _ _ _ _ _ _ _ _ _) ?_
    refine List.Forall₂.cons (SameView.rfl' _ _) ?_
    refine List.Forall₂.cons (SameView.rfl' _ _) ?_
    refine List.Forall₂.cons (sameView_formatted_getPodLogs _ _ _ _) ?_
    refine List.Forall₂.cons (SameView.rfl' _ _) ?_
    refine List.Forall₂.cons (sameView_formatted_getPodLogs _ _ _ _) ?_
    refine List.Forall₂.cons (SameView.rfl' _ _) ?_
    refine List.Forall₂.cons (SameView.rfl' _ _) ?_
    refine List.Forall₂.cons (SameView.rfl' _ _) ?_
    refine List.Forall₂.cons (SameView.rfl' _ _) ?_
    refine List.Forall₂.cons (sameView_formatted_startSourcePod _ _ _ _ _ _ _ _ _) ?_
    refine List.Forall₂.cons (SameView.rfl' _ _) ?_
    refine List.Forall₂.cons (sameView_formatted_startDestPod _ _ _ _ _ _ _ _ _ _ _ _) ?_
    refine List.Forall₂.cons (SameView.rfl' _ _) ?_
    refine List.Forall₂.cons (SameView.rfl' _ _) ?_
    refine List.Forall₂.cons (sameView_formatted_getPodLogs _ _ _ _) ?_
    refine List.Forall₂.cons (SameView.rfl' _ _) ?_
    refine List.Forall₂.cons (sameView_formatted_getPodLogs _ _ _ _) ?_
    refine List.Forall₂.cons (SameView.rfl' _ _) ?_
    refine List.Forall₂.cons (SameView.rfl' _ _) ?_
    refine List.Forall₂.cons (SameView.rfl' _ _) ?_
    refine List.Forall₂.cons (SameView.rfl' _ _) ?_
    exact List.Forall₂.nil

/-- C10 (amended): both manifests handed to the cluster carry the secret in
plain text, so source-unit (resp. destination-unit) manifests built from
different secrets are different. What does not depend on the secret is the
text the program formats itself (its log lines and the usage line): two runs
that are answered the same errors, phases and addresses halt or complete alike
and write the same such lines, whatever the secret and whatever the units
logged. The unit logs retrieved by `getPodLogs` reach the program's output as
they are. -/
theorem C10_formatted_lines_independent_of_secret (w : World) (f : Flags) (fuel : Nat)
    (rnd : Nat → Nat) (dst1 src1 dst2 src2 : ExecResult) :
    (main (withSecretAndUnitLogs w rnd dst1 src1 dst2 src2) f fuel).halt =
      (main w f fuel).halt ∧
    (main (withSecretAndUnitLogs w rnd dst1 src1 dst2 src2) f fuel).trace.filterMap formatted =
      (main w f fuel).trace.filterMap formatted ∧
    (∀ res podName ns, (getPodLogs res podName ns).trace.filterMap written = [res.out]) ∧
    (∀ pvc ns podName sshPort username pw pw', pw ≠ pw' →
      sourcePodYAML pvc ns podName sshPort username pw ≠
        sourcePodYAML pvc ns podName sshPort username pw') ∧
    (∀ pvc ns podName bwLimit sshPort username srcPodIP pw pw', pw ≠ pw' →
      destPodYAML pvc ns podName bwLimit sshPort username pw srcPodIP ≠
        destPodYAML pvc ns podName bwLimit sshPort username pw' srcPodIP) :=
  ⟨(main_formatted_independent w f fuel rnd dst1 src1 dst2 src2).1,
   (main_formatted_independent w f fuel rnd dst1 src1 dst2 src2).2,
   fun res podName ns => by simp [getPodLogs, written],
   fun pvc ns podName sshPort username pw pw' hne h =>
     hne (sourcePodYAML_injective pvc ns podName sshPort username pw pw' h),
   fun pvc ns podName bwLimit sshPort username srcPodIP pw pw' hne h =>
     hne (destPodYAML_injective pvc ns podName bwLimit sshPort username srcPodIP pw pw' h)⟩

/-- Witness for C10: the scenario run with the secrets `dkryFMT07els` and
`aaaaaaaaaaaa`, the units of the second run logging the trace of their
commands. -/
theorem C10_formatted_lines_independent_of_secret_witness :
    (main (tracedWorld (fun _ => 0)) scenarioFlags 5).trace.filterMap formatted =
      (main scenarioWorld scenarioFlags 5).trace.filterMap formatted ∧
    sourcePodYAML "data0" "default" "src-pod" 2222 "root" "dkryFMT07els" ≠
      sourcePodYAML "data0" "default" "src-pod" 2222 "root" "aaaaaaaaaaaa" ∧
    destPodYAML "data0-tmp" "default" "dst-pod" 5000 2222 "root" "dkryFMT07els" "10.0.0.5" ≠
      destPodYAML "data0-tmp" "default" "dst-pod" 5000 2222 "root" "aaaaaaaaaaaa" "10.0.0.5" :=
  ⟨(C10_formatted_lines_independent_of_secret scenarioWorld scenarioFlags 5 (fun _ => 0)
      (destUnitLog (randomString (fun _ => 0) 12)) (sourceUnitLog (randomString (fun _ => 0) 12))
      (destUnitLog (randomString (fun _ => 0) 12))
      (sourceUnitLog (randomString (fun _ => 0) 12))).2.1,
   (C10_formatted_lines_independent_of_secret scenarioWorld scenarioFlags 5 (fun _ => 0)
      ⟨"", none⟩ ⟨"", none⟩ ⟨"", none⟩ ⟨"", none⟩).2.2.2.1
     "data0" "default" "src-pod" 2222 "root" "dkryFMT07els" "aaaaaaaaaaaa" (by decide),
   (C10_formatted_lines_independent_of_secret scenarioWorld scenarioFlags 5 (fun _ => 0)
      ⟨"", none⟩ ⟨"", none⟩ ⟨"", none⟩ ⟨"", none⟩).2.2.2.2
     "data0-tmp" "default" "dst-pod" 5000 2222 "root" "10.0.0.5" "dkryFMT07els" "aaaaaaaaaaaa"
     (by decide)⟩

set_option maxRecDepth 100000 in
/-- Counterexample for C10 as stated: two runs of the scenario that differ only
in the random draws (secrets `dkryFMT07els` and `aaaaaaaaaaaa`) hand different
manifests to the cluster; and when the units log the trace of their commands,
as their shell started with `-x` does, the secret is part of what the program
writes to its output, which then differs between the two runs. -/
theorem C10_manifests_depend_on_secret :
    randomString scenarioWorld.rnd 12 = "dkryFMT07els" ∧
    randomString (withDraws scenarioWorld (fun _ => 0)).rnd 12 = "aaaaaaaaaaaa" ∧
    manifests (main (withDraws scenarioWorld (fun _ => 0)) scenarioFlags 5).trace ≠
      manifests (main scenarioWorld scenarioFlags 5).trace ∧
    (manifests (main scenarioWorld scenarioFlags 5).trace).head? =
      some (sourcePodYAML "data0" "default" "src-pod" 2222 "root" "dkryFMT07els") ∧
    "+ apk add --no-cache rsync openssh-client sshpass\n+ sshpass -p dkryFMT07els rsync -aHAXSv\n" ∈
      (main (tracedWorld scenarioWorld.rnd) scenarioFlags 5).trace.filterMap written ∧
    (main (tracedWorld scenarioWorld.rnd) scenarioFlags 5).trace.filterMap written ≠
      (main (tracedWorld (fun _ => 0)) scenarioFlags 5).trace.filterMap written := by
  decide

end PvcMigrate
